import Mathlib

/-
Verification development for the youtube-dl-gui core: the option compiler
(src/youtube_dl_gui/parsers.py) and the download-job record (DownloadItem,
exercised by src/tests/test_ditem.py).

The configuration dictionary is embedded as an association list from string
keys to dynamically typed values, and the compiler as a function returning
either the ordered token list or a fatal error, mirroring the Python
exceptions (KeyError for a missing configuration key, TypeError for a string
operation applied to a non-string value).
-/

set_option maxHeartbeats 1000000

deriving instance DecidableEq for Except

namespace YDG

/-- Values stored in the options dictionary: the option defaults in the
source are Python booleans, integers and strings. -/
inductive Value where
  | b (bv : Bool)
  | i (iv : Int)
  | s (sv : String)
deriving DecidableEq

/-- Python equality on dictionary values: booleans compare equal to the
integers 0 and 1 (bool is an int subtype in Python), strings compare equal
only to strings. -/
def pyEq : Value → Value → Bool
  | .b x, .b y => x == y
  | .i x, .i y => x == y
  | .b x, .i y => (if x then (1 : Int) else 0) == y
  | .i x, .b y => x == (if y then (1 : Int) else 0)
  | .s x, .s y => x == y
  | _, _ => false

/-- Python inequality of dictionary values, as used by the walk. -/
def pyNe (v w : Value) : Bool := !(pyEq v w)

/-- Python truthiness of a dictionary value. -/
def pyTruthy : Value → Bool
  | .b x => x
  | .i x => x != 0
  | .s x => x != ""

/-- The options dictionary, embedded as an association list; an assignment
conses a fresh binding, and lookups take the first binding of a key. -/
abbrev Config := List (String × Value)

/-- Errors of a compile call: the Python KeyError on a missing configuration
key, and the Python TypeError on a string operation over a non-string. -/
inductive ParseError where
  | missingConfigKey (key : String)
  | typeError (key : String)
deriving DecidableEq

/-- Dictionary lookup; a missing key is the fatal KeyError of the source. -/
def pyLookup (options_dict : Config) (k : String) : Except ParseError Value :=
  match List.lookup k options_dict with
  | some v => .ok v
  | none => .error (.missingConfigKey k)

/-- Lookup of a value that the source feeds to a string operation; a
non-string value there would make the original raise a TypeError. -/
def pyLookupStr (options_dict : Config) (k : String) : Except ParseError String :=
  match List.lookup k options_dict with
  | some (Value.s sv) => .ok sv
  | some _ => .error (.typeError k)
  | none => .error (.missingConfigKey k)

/-- Modelled from the spec: utils.to_string is imported by the parser but its
module is not under src; the spec calls it the value's canonical string form,
matching Python %-formatting of the stored booleans, integers and strings. -/
def to_string : Value → String
  | .b true => "True"
  | .b false => "False"
  | .i n => n.repr
  | .s sv => sv

/-- Character-level home-alias expansion used by remove_shortcuts. -/
def expandTilde : List Char → List Char
  | [] => []
  | c :: cs => (if c = '~' then "/home/user".data else [c]) ++ expandTilde cs

/-- Modelled from the spec: utils.remove_shortcuts is imported by the parser
but its module is not under src; the spec says the save-path step strips
shortcut/alias path segments, i.e. expands the home alias in the configured
save path. The home directory is a fixed string in this model. -/
def remove_shortcuts (path : String) : String :=
  String.mk (expandTilde path.data)

/-- True iff the string starts with a slash (an absolute posix path). -/
def startsWithSlash (s : String) : Bool :=
  match s.data with
  | [] => false
  | c :: _ => c = '/'

/-- True iff the string ends with a slash. -/
def endsWithSlash (s : String) : Bool :=
  match s.data.getLast? with
  | some c => c = '/'
  | none => false

/-- posixpath.join for two components, as used by the save-path build. -/
def pyJoin (a b : String) : String :=
  if startsWithSlash b then b
  else if a = "" then b
  else if endsWithSlash a then a ++ b
  else a ++ "/" ++ b

/-- Splitting of a character list at whitespace; the accumulator holds the
current piece reversed. -/
def splitWsAux : List Char → List Char → List String
  | [], acc => [String.mk acc.reverse]
  | c :: cs, acc =>
    if c.isWhitespace then String.mk acc.reverse :: splitWsAux cs []
    else splitWsAux cs (c :: acc)

/-- Python str.split() with no argument: split on whitespace runs, dropping
empty pieces. -/
def pySplit (s : String) : List String :=
  (splitWsAux s.data []).filter (fun t => t ≠ "")

/-- Simple data structure that holds the information for one option of the
schema: name, command line switch, default value and optional requirements. -/
structure OptionHolder where
  name : String
  flag : String
  default_value : Value
  requirements : Option (List String) := none
deriving DecidableEq

/-- Returns true if the option is a boolean switch else false. -/
def OptionHolder.is_boolean (o : OptionHolder) : Bool :=
  match o.default_value with
  | .b _ => true
  | _ => false

/-- Evaluation of the list comprehension inside check_requirements: every
named requirement is looked up, left to right, before any() is applied. -/
def lookupAll (options_dict : Config) : List String → Except ParseError (List Value)
  | [] => .ok []
  | req :: rest =>
    match pyLookup options_dict req with
    | .error e => .error e
    | .ok v =>
      match lookupAll options_dict rest with
      | .error e => .error e
      | .ok vs => .ok (v :: vs)

/-- Check if any of the required options is enabled: true when no
requirements are declared, else the disjunction of the truthiness of every
required option's value. -/
def OptionHolder.check_requirements (o : OptionHolder) (options_dict : Config) :
    Except ParseError Bool :=
  match o.requirements with
  | none => .ok true
  | some reqs =>
    match lookupAll options_dict reqs with
    | .error e => .error e
    | .ok vs => .ok (vs.any pyTruthy)

/-- The fixed option schema of OptionsParser.__init__, in declaration order. -/
def ydl_options : List OptionHolder := [
  { name := "playlist_start", flag := "--playlist-start", default_value := .i 1 },
  { name := "playlist_end", flag := "--playlist-end", default_value := .i 0 },
  { name := "max_downloads", flag := "--max-downloads", default_value := .i 0 },
  { name := "username", flag := "-u", default_value := .s "" },
  { name := "password", flag := "-p", default_value := .s "" },
  { name := "video_password", flag := "--video-password", default_value := .s "" },
  { name := "retries", flag := "-R", default_value := .i 10 },
  { name := "proxy", flag := "--proxy", default_value := .s "" },
  { name := "user_agent", flag := "--user-agent", default_value := .s "" },
  { name := "referer", flag := "--referer", default_value := .s "" },
  { name := "ignore_errors", flag := "-i", default_value := .b false },
  { name := "write_description", flag := "--write-description", default_value := .b false },
  { name := "write_info", flag := "--write-info-json", default_value := .b false },
  { name := "write_thumbnail", flag := "--write-thumbnail", default_value := .b false },
  { name := "min_filesize", flag := "--min-filesize", default_value := .i 0 },
  { name := "max_filesize", flag := "--max-filesize", default_value := .i 0 },
  { name := "write_all_subs", flag := "--all-subs", default_value := .b false },
  { name := "write_auto_subs", flag := "--write-auto-sub", default_value := .b false },
  { name := "write_subs", flag := "--write-sub", default_value := .b false },
  { name := "keep_video", flag := "-k", default_value := .b false },
  { name := "restrict_filenames", flag := "--restrict-filenames", default_value := .b false },
  { name := "save_path", flag := "-o", default_value := .s "" },
  { name := "embed_subs", flag := "--embed-subs", default_value := .b false,
    requirements := some ["write_auto_subs", "write_subs"] },
  { name := "to_audio", flag := "-x", default_value := .b false },
  { name := "audio_format", flag := "--audio-format", default_value := .s "",
    requirements := some ["to_audio"] },
  { name := "video_format", flag := "-f", default_value := .s "0" },
  { name := "subs_lang", flag := "--sub-lang", default_value := .s "",
    requirements := some ["write_subs"] },
  { name := "audio_quality", flag := "--audio-quality", default_value := .s "5",
    requirements := some ["to_audio"] }
]

/-- Build the save path: strip shortcuts from the configured save path,
append the file-naming template selected by output_format, and store the
result back into the options dictionary. -/
def build_savepath (options_dict : Config) : Except ParseError Config :=
  match pyLookupStr options_dict "save_path" with
  | .error e => .error e
  | .ok sp =>
    match pyLookup options_dict "output_format" with
    | .error e => .error e
    | .ok ofv =>
      if pyEq ofv (Value.s "id") then
        .ok (("save_path", Value.s (pyJoin (remove_shortcuts sp) "%(id)s.%(ext)s")) :: options_dict)
      else if pyEq ofv (Value.s "title") then
        .ok (("save_path", Value.s (pyJoin (remove_shortcuts sp) "%(title)s.%(ext)s")) :: options_dict)
      else
        match pyLookupStr options_dict "output_template" with
        | .error e => .error e
        | .ok tmpl =>
          .ok (("save_path", Value.s (pyJoin (remove_shortcuts sp) tmpl)) :: options_dict)

/-- Build the video format: when both the primary and the secondary format
selector differ from "0", store their "primary+secondary" combination back
into the options dictionary; the secondary selector is only read when the
primary already differs from "0" (Python short-circuit). -/
def build_videoformat (options_dict : Config) : Except ParseError Config :=
  match pyLookup options_dict "video_format" with
  | .error e => .error e
  | .ok vf =>
    if pyNe vf (Value.s "0") then
      match pyLookup options_dict "second_video_format" with
      | .error e => .error e
      | .ok svf =>
        if pyNe svf (Value.s "0") then
          match vf with
          | Value.s vfs =>
            match svf with
            | Value.s svfs =>
              .ok (("video_format", Value.s (vfs ++ "+" ++ svfs)) :: options_dict)
            | _ => .error (.typeError "second_video_format")
          | _ => .error (.typeError "video_format")
        else .ok options_dict
    else .ok options_dict

/-- One filesize block of _build_filesizes: a truthy threshold is converted
to its string form concatenated with the configured unit suffix and stored
back; a falsy threshold leaves the dictionary unchanged. -/
def build_one_filesize (key unitKey : String) (options_dict : Config) :
    Except ParseError Config :=
  match pyLookup options_dict key with
  | .error e => .error e
  | .ok v =>
    if pyTruthy v then
      match pyLookupStr options_dict unitKey with
      | .error e => .error e
      | .ok unit => .ok ((key, Value.s (to_string v ++ unit)) :: options_dict)
    else .ok options_dict

/-- Build the filesize option values: the min_filesize block runs first, the
max_filesize block second on the resulting dictionary. -/
def build_filesizes (options_dict : Config) : Except ParseError Config :=
  match build_one_filesize "min_filesize" "min_filesize_unit" options_dict with
  | .error e => .error e
  | .ok d2 => build_one_filesize "max_filesize" "max_filesize_unit" d2

/-- The three derivation steps of parse, applied in source order to the
working copy of the caller's dictionary. -/
def deriveConfig (options_dict : Config) : Except ParseError Config :=
  match build_savepath options_dict with
  | .error e => .error e
  | .ok d1 =>
    match build_videoformat d1 with
    | .error e => .error e
    | .ok d2 => build_filesizes d2

/-- The walk over the option schema: for each entry, check the requirements,
look the entry's value up, and when the value differs from the entry's
default append the flag, followed by the value's string form for non-boolean
entries. -/
def parseOptions : List OptionHolder → Config → List String →
    Except ParseError (List String)
  | [], _, options_list => .ok options_list
  | o :: rest, options_dict, options_list =>
    match o.check_requirements options_dict with
    | .error e => .error e
    | .ok ok =>
      if ok then
        match pyLookup options_dict o.name with
        | .error e => .error e
        | .ok value =>
          if pyNe value o.default_value then
            parseOptions rest options_dict
              ((options_list ++ [o.flag]) ++
                (if o.is_boolean then [] else [to_string value]))
          else
            parseOptions rest options_dict options_list
      else
        parseOptions rest options_dict options_list

/-- OptionsParser.parse: compile a configuration dictionary into the ordered
youtube-dl command line token list. The fixed leading token comes first,
the derivation steps run on a copy of the caller's dictionary, the schema is
walked once in declaration order, and the whitespace-separated passthrough
tokens of cmd_args are appended last. -/
def parse (options_dictionary : Config) : Except ParseError (List String) :=
  match deriveConfig options_dictionary with
  | .error e => .error e
  | .ok d =>
    match parseOptions ydl_options d ["--newline"] with
    | .error e => .error e
    | .ok l =>
      match pyLookupStr d "cmd_args" with
      | .error e => .error e
      | .ok cmd => .ok (l ++ pySplit cmd)

/-- State-passing form of parse: the second component is the caller's
dictionary as it stands after the call. The source copies the caller's
dictionary (options_dict = options_dictionary.copy()) and applies every
derivation to the copy only, so the caller's dictionary is handed back with
its bindings untouched. -/
def parseTracked (options_dictionary : Config) :
    Except ParseError (List String) × Config :=
  let options_dict := options_dictionary
  (parse options_dict, options_dictionary)

/-
The download-job record. The DownloadItem class itself
(youtube_dl_gui/downloadmanager.py) is not under src — only its test suite
src/tests/test_ditem.py is — so the definitions below are modelled from the
spec (sections 3 and 4.1), with every behaviour pinned by the concrete
expectations of the tests. Recorded sizes are exact rationals: the sizes the
tests assert (10.00MiB = 10485760.00, 3.45MiB = 3617587.20, and their sum
14103347.20) are all exact in base-1024 arithmetic over decimals.
-/

/-- The fixed nine-field progress snapshot of a job. -/
structure ProgressStats where
  filename : String
  extension : String
  filesize : String
  percent : String
  speed : String
  eta : String
  status : String
  playlist_size : String
  playlist_index : String
deriving DecidableEq

/-- Modelled from the spec: the construction-time default snapshot values of
a download item — filename is the URL, everything else "-" or "0%", status
Queued, playlist fields empty. -/
def default_values (url : String) : ProgressStats :=
  { filename := url, extension := "-", filesize := "-", percent := "0%",
    speed := "-", eta := "-", status := "Queued",
    playlist_size := "", playlist_index := "" }

/-- Modelled from the spec: the per-download job record with its identity,
accumulated file data, coarse stage and progress snapshot. -/
structure DownloadItem where
  url : String
  options : List String
  stage : String
  path : String
  filenames : List String
  extensions : List String
  filesizes : List ℚ
  progress_stats : ProgressStats
deriving DecidableEq

/-- Modelled from the spec: a freshly constructed job record is Queued with
empty path, empty per-file sequences and the default snapshot. -/
def mkDownloadItem (url : String) (options : List String) : DownloadItem :=
  { url := url, options := options, stage := "Queued", path := "",
    filenames := [], extensions := [], filesizes := [],
    progress_stats := default_values url }

/-- Errors of the job record per the spec's taxonomy. -/
inductive DItemError where
  | invalidStage
  | illegalReset
  | malformedInput
  | unitParseError
deriving DecidableEq

/-- Modelled from the spec: the fixed classification of raw status strings
onto stages; an unrecognised status leaves the stage unchanged. Pinned by
test_set_stage of src/tests/test_ditem.py. -/
def set_stage (status current : String) : String :=
  if status = "Pre Processing" ∨ status = "Downloading" ∨ status = "Post Processing" then
    "Active"
  else if status = "Finished" ∨ status = "Warning" ∨ status = "Already Downloaded" then
    "Completed"
  else if status = "Error" ∨ status = "Stopped" ∨ status = "Filesize Abort" then
    "Error"
  else current

/-- Value of a digit string, if every character is a digit. -/
def digitsVal (s : String) : Option Nat :=
  if s ≠ "" ∧ s.data.all Char.isDigit then
    some (s.data.foldl (fun acc ch => 10 * acc + (ch.toNat - 48)) 0)
  else none

/-- Splitting of a character list at the dot character, for numerals. -/
def splitDotAux : List Char → List Char → List String
  | [], acc => [String.mk acc.reverse]
  | c :: cs, acc =>
    if c = '.' then String.mk acc.reverse :: splitDotAux cs []
    else splitDotAux cs (c :: acc)

/-- Parse a decimal numeral such as "3.45" into a numerator/denominator
pair of naturals ((345, 100) here). -/
def parseDecimalParts (s : String) : Option (Nat × Nat) :=
  match splitDotAux s.data [] with
  | [a] => (digitsVal a).map (fun n => (n, 1))
  | [a, b] =>
    match digitsVal a, digitsVal b with
    | some x, some y => some (x * 10 ^ b.length + y, 10 ^ b.length)
    | _, _ => none
  | _ => none

/-- The binary unit suffixes with their byte multipliers, multi-character
suffixes first so that the suffix match is unambiguous. -/
def KILO_UNITS : List (String × Nat) :=
  [("KiB", 1024), ("MiB", 1024 ^ 2), ("GiB", 1024 ^ 3), ("TiB", 1024 ^ 4),
   ("PiB", 1024 ^ 5), ("EiB", 1024 ^ 6), ("ZiB", 1024 ^ 7), ("YiB", 1024 ^ 8),
   ("B", 1)]

/-- True iff the character list q is a suffix of s. -/
def listEndsWith (s q : List Char) : Bool :=
  q.isSuffixOf s

/-- The purely natural-number part of the size-string parse: numeral
numerator, numeral denominator, and the unit's byte multiplier. -/
def to_bytes_parts (s : String) : Option (Nat × Nat × Nat) :=
  match KILO_UNITS.find? (fun p => listEndsWith s.data p.1.data) with
  | none => none
  | some (suf, mult) =>
    (parseDecimalParts (String.mk (s.data.take (s.data.length - suf.data.length)))).map
      (fun p => (p.1, p.2, mult))

/-- Modelled from the spec: convert a human-readable size string (numeral
plus binary unit suffix, base 1024) to an exact byte count; a malformed
string yields none (the UnitParseError of the spec, isolated by update). -/
def to_bytes (s : String) : Option ℚ :=
  (to_bytes_parts s).map (fun t => (t.1 : ℚ) * (t.2.2 : ℚ) / (t.2.1 : ℚ))

/-- Render a nonnegative integer as a decimal string. -/
def natStr (n : Nat) : String := String.mk (Nat.toDigits 10 n)

/-- Modelled from the spec: render a byte count in human-readable form with
two decimals and the largest unit of size at most the value. -/
def format_bytes (q : ℚ) : String :=
  let names : List String := ["B", "KiB", "MiB", "GiB", "TiB", "PiB", "EiB", "ZiB", "YiB"]
  let exp := (((List.range 9).reverse).find? (fun i => (1024 : ℚ) ^ i ≤ q)).getD 0
  let val := q / (1024 : ℚ) ^ exp
  let cent := (val * 100 + 1 / 2).floor.toNat
  natStr (cent / 100) ++ "." ++ (if cent % 100 < 10 then "0" else "") ++ natStr (cent % 100)
    ++ names.getD exp "B"

/-- Modelled from the spec (section 4.1): the central update operation of the
job record. Snapshot fields present in the mapping are copied verbatim when
non-empty, and restored to their construction-time defaults when present but
empty (pinned by test_calc_post_proc_size, where an empty speed/eta yields
"-"); path is overwritten verbatim; filename and extension values are
appended to their sequences; a parsed filesize is appended when this call
introduced a new extension and otherwise overwrites the last recorded entry;
a malformed size is isolated and the update proceeds; the status drives the
stage classification; the Post Processing sub-status additionally records
the combined size of all recorded entries as a new trailing entry and shows
its human-readable form (pinned by test_calc_post_proc_size). -/
def update_stats (d : DownloadItem) (stats : List (String × String)) : DownloadItem :=
  let dflt := default_values d.url
  let ps := d.progress_stats
  let upd := fun (k : String) (old df : String) =>
    match List.lookup k stats with
    | none => old
    | some v => if v = "" then df else v
  let ps2 : ProgressStats :=
    { filename := upd "filename" ps.filename dflt.filename,
      extension := upd "extension" ps.extension dflt.extension,
      filesize := upd "filesize" ps.filesize dflt.filesize,
      percent := upd "percent" ps.percent dflt.percent,
      speed := upd "speed" ps.speed dflt.speed,
      eta := upd "eta" ps.eta dflt.eta,
      status := upd "status" ps.status dflt.status,
      playlist_size := upd "playlist_size" ps.playlist_size dflt.playlist_size,
      playlist_index := upd "playlist_index" ps.playlist_index dflt.playlist_index }
  let path2 :=
    match List.lookup "path" stats with
    | some p => p
    | none => d.path
  let filenames2 :=
    match List.lookup "filename" stats with
    | some f => d.filenames ++ [f]
    | none => d.filenames
  let extensions2 :=
    match List.lookup "extension" stats with
    | some e => d.extensions ++ [e]
    | none => d.extensions
  let filesizes2 :=
    match List.lookup "filesize" stats with
    | none => d.filesizes
    | some fs =>
      match to_bytes fs with
      | none => d.filesizes
      | some q =>
        if (List.lookup "extension" stats).isSome then d.filesizes ++ [q]
        else if d.filesizes = [] then [q]
        else d.filesizes.dropLast ++ [q]
  let stage2 :=
    match List.lookup "status" stats with
    | some st => set_stage st d.stage
    | none => d.stage
  let d2 : DownloadItem :=
    { d with progress_stats := ps2, path := path2, filenames := filenames2,
             extensions := extensions2, filesizes := filesizes2, stage := stage2 }
  if List.lookup "status" stats = some "Post Processing" then
    let total := d2.filesizes.sum
    { d2 with filesizes := d2.filesizes ++ [total],
              progress_stats := { d2.progress_stats with filesize := format_bytes total } }
  else d2

/-- Modelled from the spec: reset fails with IllegalReset while the stage is
Active; otherwise it returns the record to Queued with cleared path, empty
per-file sequences and the construction-time snapshot. Pinned by TestReset
of src/tests/test_ditem.py. -/
def reset (d : DownloadItem) : Except DItemError DownloadItem :=
  if d.stage = "Active" then .error .illegalReset
  else
    .ok { d with stage := "Queued", path := "", filenames := [], extensions := [],
                 filesizes := [], progress_stats := default_values d.url }

/-- A complete configuration with every schema option at its default and all
auxiliary keys present, used to instantiate the universal theorems. -/
def sampleDefaultConfig : Config :=
  [("playlist_start", .i 1), ("playlist_end", .i 0), ("max_downloads", .i 0),
   ("username", .s ""), ("password", .s ""), ("video_password", .s ""),
   ("retries", .i 10), ("proxy", .s ""), ("user_agent", .s ""), ("referer", .s ""),
   ("ignore_errors", .b false), ("write_description", .b false), ("write_info", .b false),
   ("write_thumbnail", .b false), ("min_filesize", .i 0), ("max_filesize", .i 0),
   ("write_all_subs", .b false), ("write_auto_subs", .b false), ("write_subs", .b false),
   ("keep_video", .b false), ("restrict_filenames", .b false), ("save_path", .s ""),
   ("embed_subs", .b false), ("to_audio", .b false), ("audio_format", .s ""),
   ("video_format", .s "0"), ("subs_lang", .s ""), ("audio_quality", .s "5"),
   ("output_format", .s "id"), ("output_template", .s ""), ("second_video_format", .s "0"),
   ("min_filesize_unit", .s ""), ("max_filesize_unit", .s ""), ("cmd_args", .s "")]

/-- The derived dictionary of the sample default configuration. -/
def sampleDerived : Config :=
  ("save_path", Value.s "%(id)s.%(ext)s") :: sampleDefaultConfig

/-- The embed-subtitles schema entry as declared by the source. -/
def embed_subs_holder : OptionHolder :=
  { name := "embed_subs", flag := "--embed-subs", default_value := .b false,
    requirements := some ["write_auto_subs", "write_subs"] }

/-- Agreement of two dictionaries on every key satisfying P. -/
def AgreeOn (P : String → Prop) (c₁ c₂ : Config) : Prop :=
  ∀ k, P k → List.lookup k c₁ = List.lookup k c₂

/-- Lifting of dictionary agreement to derivation results: equal errors, or
output dictionaries that still agree. -/
def ExceptAgreeOn (P : String → Prop) :
    Except ParseError Config → Except ParseError Config → Prop
  | .error e₁, .error e₂ => e₁ = e₂
  | .ok d₁, .ok d₂ => AgreeOn P d₁ d₂
  | _, _ => False

/-- The declared requirement names of a schema entry. -/
def reqNames (o : OptionHolder) : List String := o.requirements.getD []

/-- Removal of every binding of one key: the dictionary without that key. -/
def eraseKey (bad : String) (c : Config) : Config :=
  c.filter (fun p => p.1 ≠ bad)

/-- The keys the compiler feeds to string operations: a present non-string
value under one of these would make the original raise a TypeError. -/
def strKeys : List String :=
  ["save_path", "output_template", "video_format", "second_video_format",
   "min_filesize_unit", "max_filesize_unit", "cmd_args"]

/-- A configuration is string-typed when every present strKeys binding holds
a string, ruling the Python TypeError out. -/
def strTyped (c : Config) : Bool :=
  strKeys.all (fun k =>
    match List.lookup k c with
    | some (Value.s _) => true
    | some _ => false
    | none => true)

/-- The configuration keys every compile call reads unconditionally: the
auxiliary keys of the derivation and passthrough steps, the names of the
ungated schema entries, and every declared prerequisite name. -/
def compileAlwaysKeys : List String :=
  ["save_path", "output_format", "video_format", "min_filesize", "max_filesize",
   "cmd_args", "playlist_start", "playlist_end", "max_downloads", "username",
   "password", "video_password", "retries", "proxy", "user_agent", "referer",
   "ignore_errors", "write_description", "write_info", "write_thumbnail",
   "write_all_subs", "write_auto_subs", "write_subs", "keep_video",
   "restrict_filenames", "to_audio"]

/-- A key the compile call references over configuration c: an
unconditionally read key; output_template when the output format selects
neither built-in template; second_video_format when the primary video format
selector is set; a filesize unit key when its threshold is truthy; and a
gated schema entry's own name when its requirement check passes, i.e. some
prerequisite value is truthy. -/
def referencedKey (c : Config) (k : String) : Prop :=
  k ∈ compileAlwaysKeys ∨
  (k = "output_template" ∧ ∃ v, List.lookup "output_format" c = some v ∧
    pyEq v (Value.s "id") = false ∧ pyEq v (Value.s "title") = false) ∨
  (k = "second_video_format" ∧ ∃ v, List.lookup "video_format" c = some v ∧
    pyNe v (Value.s "0") = true) ∨
  (k = "min_filesize_unit" ∧ ∃ v, List.lookup "min_filesize" c = some v ∧
    pyTruthy v = true) ∨
  (k = "max_filesize_unit" ∧ ∃ v, List.lookup "max_filesize" c = some v ∧
    pyTruthy v = true) ∨
  (∃ o ∈ ydl_options, o.name = k ∧ ∃ reqs, o.requirements = some reqs ∧
    ∃ r ∈ reqs, ∃ v, List.lookup r c = some v ∧ pyTruthy v = true)

/-- The sample default configuration with a custom output format and the
output_template key removed: the template key becomes a conditionally
referenced, absent key. -/
def sampleNoTemplateConfig : Config :=
  ("output_format", Value.s "custom") :: eraseKey "output_template" sampleDefaultConfig

/-- The update sequence of the post-merge scenario: a .webm segment, then an
.m4a segment, then the Post Processing report with no filesize field
(mirrors test_calc_post_proc_size of src/tests/test_ditem.py). -/
def c3_item : DownloadItem :=
  update_stats (update_stats (update_stats (mkDownloadItem "url" ["-f", "flv"])
    [("filename", "file.f123"), ("extension", ".webm"), ("filesize", "10.00MiB"),
     ("percent", "75.0%"), ("speed", "123.45KiB/s"), ("eta", "N/A"),
     ("status", "Downloading"), ("path", "/home/user")])
    [("filename", "file.f456"), ("extension", ".m4a"), ("filesize", "3.45MiB"),
     ("percent", "96.0%"), ("speed", "222.22KiB/s"), ("eta", "N/A"),
     ("status", "Downloading"), ("path", "/home/user")])
    [("filename", "file"), ("extension", ".webm"), ("percent", "100%"),
     ("speed", ""), ("eta", ""), ("status", "Post Processing")]

/-- A job record in the Active stage with accumulated data. -/
def itemActive : DownloadItem :=
  { mkDownloadItem "url" ["-f", "flv"] with
      stage := "Active"
      path := "/home/user"
      filenames := ["file1"]
      extensions := [".mp4"]
      filesizes := [1234.00] }

/-- A job record in the Completed stage with accumulated data. -/
def itemCompleted : DownloadItem :=
  { mkDownloadItem "url" ["-f", "flv"] with
      stage := "Completed"
      path := "/home/user"
      filenames := ["file"]
      extensions := [".mp4"]
      filesizes := [123456.00] }

/-
Specification-side description of the walk, for the refinement claims: what
one schema entry contributes to the token list, phrased over total lookups
the way the spec describes the walk, to be compared with the accumulating
walk parseOptions of the source.
-/

/-- Specification-side token contribution of one schema entry: tokens appear
iff the requirement check passes and the (derived) configuration value
differs from the entry's default; then exactly the flag, followed by the
value's string form when the entry is not boolean-typed. -/
def optionContribution (o : OptionHolder) (d : Config) : List String :=
  let reqOk :=
    match o.requirements with
    | none => true
    | some reqs => reqs.any (fun r => pyTruthy ((List.lookup r d).getD (Value.s "")))
  match reqOk, List.lookup o.name d with
  | true, some v =>
    if pyNe v o.default_value then
      o.flag :: (if o.is_boolean then [] else [to_string v])
    else []
  | _, _ => []

/-- Specification-side passthrough tokens of the derived dictionary. -/
def cmdTokens (d : Config) : List String :=
  match List.lookup "cmd_args" d with
  | some (Value.s sv) => pySplit sv
  | _ => []

/-- pyLookup succeeds exactly on present keys. -/
theorem pyLookup_eq_ok {d : Config} {k : String} {v : Value} :
    pyLookup d k = .ok v ↔ List.lookup k d = some v := by
  unfold pyLookup
  cases h : List.lookup k d <;> simp

/-- pyLookup fails exactly on absent keys, and only with a missing-key
error for that key. -/
theorem pyLookup_eq_error {d : Config} {k : String} {e : ParseError} :
    pyLookup d k = .error e ↔ (List.lookup k d = none ∧ e = .missingConfigKey k) := by
  unfold pyLookup
  cases h : List.lookup k d <;> simp [eq_comm]

/-- pyLookupStr succeeds exactly on present string-valued keys. -/
theorem pyLookupStr_eq_ok {d : Config} {k : String} {s : String} :
    pyLookupStr d k = .ok s ↔ List.lookup k d = some (Value.s s) := by
  unfold pyLookupStr
  cases h : List.lookup k d with
  | none => simp
  | some v => cases v <;> simp

/-- A successful lookupAll means the truthiness test of check_requirements
agrees with the total, getD-based form used by optionContribution. -/
theorem lookupAll_ok_any {d : Config} :
    ∀ {reqs : List String} {vs : List Value}, lookupAll d reqs = .ok vs →
      vs.any pyTruthy = reqs.any (fun r => pyTruthy ((List.lookup r d).getD (Value.s ""))) := by
  intro reqs
  induction reqs with
  | nil => intro vs h; unfold lookupAll at h; cases h; rfl
  | cons r rs ih =>
    intro vs h
    unfold lookupAll at h
    cases hr : pyLookup d r with
    | error e => rw [hr] at h; exact absurd h (by simp)
    | ok v =>
      rw [hr] at h
      cases hrs : lookupAll d rs with
      | error e => rw [hrs] at h; exact absurd h (by simp)
      | ok vs2 =>
        rw [hrs] at h
        cases h
        have hv : List.lookup r d = some v := pyLookup_eq_ok.mp hr
        simp [List.any_cons, hv, ih hrs]

/-- A successful requirement check computes exactly the total requirement
test of optionContribution. -/
theorem check_requirements_ok {o : OptionHolder} {d : Config} {b : Bool}
    (h : o.check_requirements d = .ok b) :
    b = (match o.requirements with
         | none => true
         | some reqs => reqs.any (fun r => pyTruthy ((List.lookup r d).getD (Value.s "")))) := by
  unfold OptionHolder.check_requirements at h
  split at h
  · next hreq =>
    cases h
    rfl
  · next reqs hreq =>
    split at h
    · exact absurd h (by simp)
    · next vs hl =>
      cases h
      exact lookupAll_ok_any hl

/-- A successful walk of the schema appends exactly the per-entry
contributions, in declaration order, to the incoming accumulator. -/
theorem parseOptions_ok_eq :
    ∀ (opts : List OptionHolder) (d : Config) (acc res : List String),
      parseOptions opts d acc = .ok res →
      res = acc ++ opts.flatMap (fun o => optionContribution o d) := by
  intro opts
  induction opts with
  | nil =>
    intro d acc res h
    unfold parseOptions at h
    cases h
    simp
  | cons o rest ih =>
    intro d acc res h
    unfold parseOptions at h
    split at h
    · exact absurd h (by simp)
    · next b hc =>
      have hb := check_requirements_ok hc
      split at h
      · next hbt =>
        subst hbt
        split at h
        · exact absurd h (by simp)
        · next v hv =>
          have hvl : List.lookup o.name d = some v := pyLookup_eq_ok.mp hv
          split at h
          · next hne =>
            have hco : optionContribution o d =
                o.flag :: (if o.is_boolean then [] else [to_string v]) := by
              unfold optionContribution
              rw [← hb, hvl]
              simp [hne]
            rw [ih d _ res h]
            simp [List.flatMap_cons, hco]
          · next hne =>
            have hne2 : pyNe v o.default_value = false := by
              revert hne
              cases pyNe v o.default_value <;> simp
            have hco : optionContribution o d = [] := by
              unfold optionContribution
              rw [← hb, hvl]
              simp [hne2]
            rw [ih d _ res h]
            simp [List.flatMap_cons, hco]
      · next hbt =>
        have hbf : b = false := by
          revert hbt
          cases b <;> simp
        subst hbf
        have hco : optionContribution o d = [] := by
          unfold optionContribution
          rw [← hb]
        rw [ih d _ res h]
        simp [List.flatMap_cons, hco]

/-- A successful parse decomposes into a successful derivation, a successful
walk starting from the fixed leading token, and the passthrough tokens. -/
theorem parse_ok_elim {c : Config} {ts : List String} (h : parse c = .ok ts) :
    ∃ d l cmd, deriveConfig c = .ok d ∧
      parseOptions ydl_options d ["--newline"] = .ok l ∧
      pyLookupStr d "cmd_args" = .ok cmd ∧ ts = l ++ pySplit cmd := by
  unfold parse at h
  split at h
  · exact absurd h (by simp)
  · next d hd =>
    split at h
    · exact absurd h (by simp)
    · next l hl =>
      split at h
      · exact absurd h (by simp)
      · next cmd hcmd =>
        cases h
        exact ⟨d, l, cmd, hd, hl, hcmd, rfl⟩

/-- Lookup of a key under a fresh binding of a different key. -/
theorem lookup_cons_ne {k a : String} (v : Value) (c : Config) (h : k ≠ a) :
    List.lookup k ((a, v) :: c) = List.lookup k c := by
  simp [List.lookup, beq_eq_false_iff_ne.mpr h]

/-- Lookup of a key under a fresh binding of the same key. -/
theorem lookup_cons_self {a : String} (v : Value) (c : Config) :
    List.lookup a ((a, v) :: c) = some v := by
  simp [List.lookup]

/-- A key absent from an extended dictionary is absent from the base. -/
theorem lookup_none_cons {k a : String} {v : Value} {c : Config}
    (h : List.lookup k ((a, v) :: c) = none) : List.lookup k c = none := by
  by_cases hk : k = a
  · subst hk
    rw [lookup_cons_self] at h
    exact absurd h (by simp)
  · rwa [lookup_cons_ne v c hk] at h

/-- A successful save-path build pushes exactly one save_path binding onto
the incoming dictionary. -/
theorem build_savepath_shape {c d : Config} (h : build_savepath c = .ok d) :
    ∃ sv, d = ("save_path", Value.s sv) :: c := by
  unfold build_savepath at h
  split at h
  · exact absurd h (by simp)
  · split at h
    · exact absurd h (by simp)
    · split at h
      · cases h; exact ⟨_, rfl⟩
      · split at h
        · cases h; exact ⟨_, rfl⟩
        · split at h
          · exact absurd h (by simp)
          · cases h; exact ⟨_, rfl⟩

/-- A successful video-format build leaves the dictionary unchanged or
pushes exactly one video_format binding. -/
theorem build_videoformat_shape {c d : Config} (h : build_videoformat c = .ok d) :
    d = c ∨ ∃ sv, d = ("video_format", Value.s sv) :: c := by
  unfold build_videoformat at h
  split at h
  · exact absurd h (by simp)
  · split at h
    · split at h
      · exact absurd h (by simp)
      · split at h
        · split at h
          · split at h
            · cases h; exact Or.inr ⟨_, rfl⟩
            · exact absurd h (by simp)
          · exact absurd h (by simp)
        · cases h; exact Or.inl rfl
    · cases h; exact Or.inl rfl

/-- A successful filesize block leaves the dictionary unchanged or pushes
exactly one binding of its key. -/
theorem build_one_filesize_shape {key unitKey : String} {c d : Config}
    (h : build_one_filesize key unitKey c = .ok d) :
    d = c ∨ ∃ sv, d = (key, Value.s sv) :: c := by
  unfold build_one_filesize at h
  split at h
  · exact absurd h (by simp)
  · split at h
    · split at h
      · exact absurd h (by simp)
      · cases h; exact Or.inr ⟨_, rfl⟩
    · cases h; exact Or.inl rfl

/-- Lookup of any key other than save_path is unchanged by the save-path
build. -/
theorem lookup_build_savepath {c d : Config} (h : build_savepath c = .ok d)
    {k : String} (hk : k ≠ "save_path") :
    List.lookup k d = List.lookup k c := by
  obtain ⟨sv, rfl⟩ := build_savepath_shape h
  exact lookup_cons_ne _ c hk

/-- Lookup of any key other than video_format is unchanged by the
video-format build. -/
theorem lookup_build_videoformat {c d : Config} (h : build_videoformat c = .ok d)
    {k : String} (hk : k ≠ "video_format") :
    List.lookup k d = List.lookup k c := by
  rcases build_videoformat_shape h with rfl | ⟨sv, rfl⟩
  · rfl
  · exact lookup_cons_ne _ c hk

/-- Lookup of any key other than the block's key is unchanged by one
filesize block. -/
theorem lookup_build_one_filesize {key unitKey : String} {c d : Config}
    (h : build_one_filesize key unitKey c = .ok d) {k : String} (hk : k ≠ key) :
    List.lookup k d = List.lookup k c := by
  rcases build_one_filesize_shape h with rfl | ⟨sv, rfl⟩
  · rfl
  · exact lookup_cons_ne _ c hk

/-- A successful filesize build decomposes into its two blocks. -/
theorem build_filesizes_elim {c d : Config} (h : build_filesizes c = .ok d) :
    ∃ d2, build_one_filesize "min_filesize" "min_filesize_unit" c = .ok d2 ∧
      build_one_filesize "max_filesize" "max_filesize_unit" d2 = .ok d := by
  unfold build_filesizes at h
  split at h
  · exact absurd h (by simp)
  · next d2 h2 => exact ⟨d2, h2, h⟩

/-- A successful derivation decomposes into its three steps. -/
theorem deriveConfig_elim {c d : Config} (h : deriveConfig c = .ok d) :
    ∃ d1 d2, build_savepath c = .ok d1 ∧ build_videoformat d1 = .ok d2 ∧
      build_filesizes d2 = .ok d := by
  unfold deriveConfig at h
  split at h
  · exact absurd h (by simp)
  · next d1 h1 =>
    split at h
    · exact absurd h (by simp)
    · next d2 h2 => exact ⟨d1, d2, h1, h2, h⟩

/-- Lookup of any key outside the four derived keys is unchanged by the
whole derivation. -/
theorem lookup_deriveConfig {c d : Config} (h : deriveConfig c = .ok d)
    {k : String} (h1 : k ≠ "save_path") (h2 : k ≠ "video_format")
    (h3 : k ≠ "min_filesize") (h4 : k ≠ "max_filesize") :
    List.lookup k d = List.lookup k c := by
  obtain ⟨d1, d2, hs, hv, hf⟩ := deriveConfig_elim h
  obtain ⟨dm, hmin, hmax⟩ := build_filesizes_elim hf
  rw [lookup_build_one_filesize hmax h4, lookup_build_one_filesize hmin h3,
    lookup_build_videoformat hv h2, lookup_build_savepath hs h1]

/-- A key absent from the derived dictionary was absent from the input. -/
theorem deriveConfig_lookup_none {c d : Config} (h : deriveConfig c = .ok d)
    {k : String} (hk : List.lookup k d = none) : List.lookup k c = none := by
  obtain ⟨d1, d2, hs, hv, hf⟩ := deriveConfig_elim h
  obtain ⟨dm, hmin, hmax⟩ := build_filesizes_elim hf
  obtain ⟨v1, rfl⟩ := build_savepath_shape hs
  have hk2 : List.lookup k dm = none := by
    rcases build_one_filesize_shape hmax with rfl | ⟨w, rfl⟩
    · exact hk
    · exact lookup_none_cons hk
  have hk3 : List.lookup k d2 = none := by
    rcases build_one_filesize_shape hmin with rfl | ⟨w, rfl⟩
    · exact hk2
    · exact lookup_none_cons hk2
  have hk4 : List.lookup k (("save_path", Value.s v1) :: c) = none := by
    rcases build_videoformat_shape hv with rfl | ⟨w, rfl⟩
    · exact hk3
    · exact lookup_none_cons hk3
  exact lookup_none_cons hk4

/-- C9 (amended): the compiler's fixed option schema, walked once per compile
call, contains exactly 28 entries. -/
theorem c9_schema_size : ydl_options.length = 28 := by decide

/-- C9 counterexample: the claim that the schema contains exactly 30 entries
is false — the declared schema has 28 entries. -/
theorem c9_counterexample : ¬ ydl_options.length = 30 := by decide

/-- C1: for every configuration that compiles, the tokens between the fixed
leading token and the passthrough tokens are exactly one walk of the schema
in declaration order, each entry contributing iff its requirement check
passes and its derived value differs from the entry's default, and then
contributing exactly its flag followed — for non-boolean entries only — by
the value's string form. -/
theorem c1_schema_walk (c d : Config) (t : List String)
    (hd : deriveConfig c = .ok d) (hp : parse c = .ok t) :
    t = "--newline" ::
      (ydl_options.flatMap (fun o => optionContribution o d) ++ cmdTokens d) := by
  obtain ⟨d2, l, cmd, hd2, hw, hcmd, rfl⟩ := parse_ok_elim hp
  rw [hd] at hd2
  injection hd2 with hdd
  subst hdd
  have hw2 := parseOptions_ok_eq _ _ _ _ hw
  have hct : cmdTokens d = pySplit cmd := by
    unfold cmdTokens
    rw [pyLookupStr_eq_ok.mp hcmd]
  rw [hw2, hct]
  simp

/-- C1 witness: the walk description instantiated at the sample default
configuration and its derived dictionary. -/
theorem c1_schema_walk_witness :
    (["--newline", "-o", "%(id)s.%(ext)s"] : List String) = "--newline" ::
      (ydl_options.flatMap (fun o => optionContribution o sampleDerived) ++
        cmdTokens sampleDerived) :=
  c1_schema_walk sampleDefaultConfig sampleDerived _ (by decide) (by decide)

/-- C2 counterexample: a configuration with "write all subs" enabled and
embed_subs set to a non-default value for which compile does not emit the
embed-subtitles flag — the declared requirements are write_auto_subs and
write_subs, not write_all_subs. -/
theorem c2_counterexample :
    List.lookup "write_all_subs"
        (("write_all_subs", Value.b true) :: ("embed_subs", Value.b true) :: sampleDefaultConfig)
      = some (Value.b true) ∧
    List.lookup "embed_subs"
        (("write_all_subs", Value.b true) :: ("embed_subs", Value.b true) :: sampleDefaultConfig)
      = some (Value.b true) ∧
    parse (("write_all_subs", Value.b true) :: ("embed_subs", Value.b true) :: sampleDefaultConfig)
      = .ok ["--newline", "--all-subs", "-o", "%(id)s.%(ext)s"] ∧
    "--embed-subs" ∉ (["--newline", "--all-subs", "-o", "%(id)s.%(ext)s"] : List String) := by
  refine ⟨by decide, by decide, by decide, by decide⟩

/-- C2 (amended): the embed-subtitles requirement check succeeds whenever
write_auto_subs or write_subs evaluates truthy; hence for every compiling
configuration where one of those two options is truthy and embed_subs is
non-default, the embed-subtitles flag is emitted. -/
theorem c2_amended (c : Config) (t : List String) (u w v : Value)
    (h1 : List.lookup "write_auto_subs" c = some u)
    (h2 : List.lookup "write_subs" c = some w)
    (ht : pyTruthy u = true ∨ pyTruthy w = true)
    (hv : List.lookup "embed_subs" c = some v)
    (hne : pyNe v (Value.b false) = true)
    (hp : parse c = .ok t) :
    "--embed-subs" ∈ t := by
  obtain ⟨d, l, cmd, hd, hw, hcmd, rfl⟩ := parse_ok_elim hp
  have e1 : List.lookup "write_auto_subs" d = some u := by
    rw [lookup_deriveConfig hd (by decide) (by decide) (by decide) (by decide)]
    exact h1
  have e2 : List.lookup "write_subs" d = some w := by
    rw [lookup_deriveConfig hd (by decide) (by decide) (by decide) (by decide)]
    exact h2
  have ev : List.lookup "embed_subs" d = some v := by
    rw [lookup_deriveConfig hd (by decide) (by decide) (by decide) (by decide)]
    exact hv
  have hco : optionContribution embed_subs_holder d = ["--embed-subs"] := by
    unfold optionContribution embed_subs_holder
    simp only [List.any_cons, List.any_nil, e1, e2, ev, Option.getD_some]
    rcases ht with ht | ht <;>
      simp [ht, hne, OptionHolder.is_boolean]
  have hmem : embed_subs_holder ∈ ydl_options := by decide
  have hw2 := parseOptions_ok_eq _ _ _ _ hw
  rw [hw2]
  refine List.mem_append_left _ (List.mem_append_right _ ?_)
  exact List.mem_flatMap.mpr ⟨embed_subs_holder, hmem, by rw [hco]; simp⟩

/-- C2 witness: enabling write_subs alone and setting embed_subs non-default
makes compile emit the embed-subtitles flag. -/
theorem c2_amended_witness :
    "--embed-subs" ∈
      (["--newline", "--write-sub", "-o", "%(id)s.%(ext)s", "--embed-subs"] : List String) :=
  c2_amended
    (("write_subs", Value.b true) :: ("embed_subs", Value.b true) :: sampleDefaultConfig)
    _ (Value.b false) (Value.b true) (Value.b true)
    (by decide) (by decide) (Or.inr (by decide)) (by decide) (by decide) (by decide)

/-- pyJoin with an empty left component returns the right component. -/
theorem pyJoin_empty_left (b : String) : pyJoin "" b = b := by
  unfold pyJoin
  by_cases h : startsWithSlash b = true <;> simp [h]

/-- Evaluation of a full compile over any configuration whose schema options
all hold their defaults: only the derived save path can produce tokens
between the leading token and the passthrough tokens. -/
theorem parse_default_eval (c : Config) (sp g : String)
    (hsch : ∀ o ∈ ydl_options, List.lookup o.name c = some o.default_value)
    (hbs : build_savepath c = .ok (("save_path", Value.s sp) :: c))
    (hcm : List.lookup "cmd_args" c = some (Value.s g)) :
    parse c = .ok (["--newline"] ++ (if sp = "" then [] else ["-o", sp]) ++ pySplit g) := by
  have q01 : List.lookup "playlist_start" c = some (Value.i 1) :=
    hsch ⟨"playlist_start", "--playlist-start", Value.i 1, none⟩ (by decide)
  have q02 : List.lookup "playlist_end" c = some (Value.i 0) :=
    hsch ⟨"playlist_end", "--playlist-end", Value.i 0, none⟩ (by decide)
  have q03 : List.lookup "max_downloads" c = some (Value.i 0) :=
    hsch ⟨"max_downloads", "--max-downloads", Value.i 0, none⟩ (by decide)
  have q04 : List.lookup "username" c = some (Value.s "") :=
    hsch ⟨"username", "-u", Value.s "", none⟩ (by decide)
  have q05 : List.lookup "password" c = some (Value.s "") :=
    hsch ⟨"password", "-p", Value.s "", none⟩ (by decide)
  have q06 : List.lookup "video_password" c = some (Value.s "") :=
    hsch ⟨"video_password", "--video-password", Value.s "", none⟩ (by decide)
  have q07 : List.lookup "retries" c = some (Value.i 10) :=
    hsch ⟨"retries", "-R", Value.i 10, none⟩ (by decide)
  have q08 : List.lookup "proxy" c = some (Value.s "") :=
    hsch ⟨"proxy", "--proxy", Value.s "", none⟩ (by decide)
  have q09 : List.lookup "user_agent" c = some (Value.s "") :=
    hsch ⟨"user_agent", "--user-agent", Value.s "", none⟩ (by decide)
  have q10 : List.lookup "referer" c = some (Value.s "") :=
    hsch ⟨"referer", "--referer", Value.s "", none⟩ (by decide)
  have q11 : List.lookup "ignore_errors" c = some (Value.b false) :=
    hsch ⟨"ignore_errors", "-i", Value.b false, none⟩ (by decide)
  have q12 : List.lookup "write_description" c = some (Value.b false) :=
    hsch ⟨"write_description", "--write-description", Value.b false, none⟩ (by decide)
  have q13 : List.lookup "write_info" c = some (Value.b false) :=
    hsch ⟨"write_info", "--write-info-json", Value.b false, none⟩ (by decide)
  have q14 : List.lookup "write_thumbnail" c = some (Value.b false) :=
    hsch ⟨"write_thumbnail", "--write-thumbnail", Value.b false, none⟩ (by decide)
  have q15 : List.lookup "min_filesize" c = some (Value.i 0) :=
    hsch ⟨"min_filesize", "--min-filesize", Value.i 0, none⟩ (by decide)
  have q16 : List.lookup "max_filesize" c = some (Value.i 0) :=
    hsch ⟨"max_filesize", "--max-filesize", Value.i 0, none⟩ (by decide)
  have q17 : List.lookup "write_all_subs" c = some (Value.b false) :=
    hsch ⟨"write_all_subs", "--all-subs", Value.b false, none⟩ (by decide)
  have q18 : List.lookup "write_auto_subs" c = some (Value.b false) :=
    hsch ⟨"write_auto_subs", "--write-auto-sub", Value.b false, none⟩ (by decide)
  have q19 : List.lookup "write_subs" c = some (Value.b false) :=
    hsch ⟨"write_subs", "--write-sub", Value.b false, none⟩ (by decide)
  have q20 : List.lookup "keep_video" c = some (Value.b false) :=
    hsch ⟨"keep_video", "-k", Value.b false, none⟩ (by decide)
  have q21 : List.lookup "restrict_filenames" c = some (Value.b false) :=
    hsch ⟨"restrict_filenames", "--restrict-filenames", Value.b false, none⟩ (by decide)
  have q23 : List.lookup "embed_subs" c = some (Value.b false) :=
    hsch embed_subs_holder (by decide)
  have q24 : List.lookup "to_audio" c = some (Value.b false) :=
    hsch ⟨"to_audio", "-x", Value.b false, none⟩ (by decide)
  have q25 : List.lookup "audio_format" c = some (Value.s "") :=
    hsch ⟨"audio_format", "--audio-format", Value.s "", some ["to_audio"]⟩ (by decide)
  have q26 : List.lookup "video_format" c = some (Value.s "0") :=
    hsch ⟨"video_format", "-f", Value.s "0", none⟩ (by decide)
  have q27 : List.lookup "subs_lang" c = some (Value.s "") :=
    hsch ⟨"subs_lang", "--sub-lang", Value.s "", some ["write_subs"]⟩ (by decide)
  have q28 : List.lookup "audio_quality" c = some (Value.s "5") :=
    hsch ⟨"audio_quality", "--audio-quality", Value.s "5", some ["to_audio"]⟩ (by decide)
  have hbv : build_videoformat (("save_path", Value.s sp) :: c)
      = .ok (("save_path", Value.s sp) :: c) := by
    simp [build_videoformat, pyLookup, List.lookup, q26, pyNe, pyEq]
  have hbf : build_filesizes (("save_path", Value.s sp) :: c)
      = .ok (("save_path", Value.s sp) :: c) := by
    simp [build_filesizes, build_one_filesize, pyLookup, List.lookup, q15, q16, pyTruthy]
  have hd : deriveConfig c = .ok (("save_path", Value.s sp) :: c) := by
    simp only [deriveConfig, hbs, hbv]
    exact hbf
  have hcm2 : pyLookupStr (("save_path", Value.s sp) :: c) "cmd_args" = .ok g := by
    apply pyLookupStr_eq_ok.mpr
    simp [List.lookup, hcm]
  by_cases hsp : sp = ""
  · subst hsp
    have hw : parseOptions ydl_options (("save_path", Value.s "") :: c) ["--newline"]
        = .ok ["--newline"] := by
      simp [parseOptions, ydl_options, OptionHolder.check_requirements, lookupAll,
        pyLookup, pyLookupStr, List.lookup, OptionHolder.is_boolean, to_string,
        pyNe, pyEq, pyTruthy,
        q01, q02, q03, q04, q05, q06, q07, q08, q09, q10, q11, q12, q13, q14,
        q15, q16, q17, q18, q19, q20, q21, q23, q24, q25, q26, q27, q28]
    simp only [parse, hd, hw, hcm2]
    simp
  · have hw : parseOptions ydl_options (("save_path", Value.s sp) :: c) ["--newline"]
        = .ok ["--newline", "-o", sp] := by
      simp [parseOptions, ydl_options, OptionHolder.check_requirements, lookupAll,
        pyLookup, pyLookupStr, List.lookup, OptionHolder.is_boolean, to_string,
        pyNe, pyEq, pyTruthy, beq_eq_false_iff_ne.mpr hsp,
        q01, q02, q03, q04, q05, q06, q07, q08, q09, q10, q11, q12, q13, q14,
        q15, q16, q17, q18, q19, q20, q21, q23, q24, q25, q26, q27, q28]
    simp only [parse, hd, hw, hcm2]
    simp [hsp]

/-- C5 counterexample: the sample default configuration has every schema
option at its default and an empty passthrough string, yet compile returns
save-path tokens beyond the fixed leading token. -/
theorem c5_counterexample :
    (∀ o ∈ ydl_options, List.lookup o.name sampleDefaultConfig = some o.default_value) ∧
    List.lookup "cmd_args" sampleDefaultConfig = some (Value.s "") ∧
    pySplit "" = [] ∧
    parse sampleDefaultConfig = .ok ["--newline", "-o", "%(id)s.%(ext)s"] ∧
    parse sampleDefaultConfig ≠ .ok ["--newline"] := by
  refine ⟨by decide, by decide, by decide, by decide, by decide⟩

/-- C5 (amended): for every configuration whose schema options all hold
their defaults, compile returns exactly the fixed leading token, then — only
when the derived save path is non-empty — the save-path flag and the derived
save path, then the passthrough tokens of cmd_args. -/
theorem c5_amended (c : Config) (f m g : String)
    (hsch : ∀ o ∈ ydl_options, List.lookup o.name c = some o.default_value)
    (hof : List.lookup "output_format" c = some (Value.s f))
    (hot : List.lookup "output_template" c = some (Value.s m))
    (hcm : List.lookup "cmd_args" c = some (Value.s g)) :
    ∃ sp, build_savepath c = .ok (("save_path", Value.s sp) :: c) ∧
      parse c = .ok (["--newline"] ++ (if sp = "" then [] else ["-o", sp]) ++ pySplit g) := by
  have hsp : List.lookup "save_path" c = some (Value.s "") :=
    hsch ⟨"save_path", "-o", Value.s "", none⟩ (by decide)
  have hrs : remove_shortcuts "" = "" := rfl
  have hbs : ∃ sp, build_savepath c = .ok (("save_path", Value.s sp) :: c) := by
    by_cases hid : f = "id"
    · refine ⟨"%(id)s.%(ext)s", ?_⟩
      simp [build_savepath, pyLookupStr, pyLookup, hsp, hof, hid, pyEq, hrs,
        pyJoin_empty_left]
    · by_cases htl : f = "title"
      · refine ⟨"%(title)s.%(ext)s", ?_⟩
        simp [build_savepath, pyLookupStr, pyLookup, hsp, hof, htl, pyEq, hrs,
          pyJoin_empty_left, beq_eq_false_iff_ne.mpr hid]
      · refine ⟨m, ?_⟩
        simp [build_savepath, pyLookupStr, pyLookup, hsp, hof, hot, pyEq, hrs,
          pyJoin_empty_left, beq_eq_false_iff_ne.mpr hid, beq_eq_false_iff_ne.mpr htl]
  obtain ⟨sp, hbs⟩ := hbs
  exact ⟨sp, hbs, parse_default_eval c sp g hsch hbs hcm⟩

/-- C5 witness: the amended statement instantiated at the sample default
configuration. -/
theorem c5_amended_witness :
    ∃ sp, build_savepath sampleDefaultConfig
        = .ok (("save_path", Value.s sp) :: sampleDefaultConfig) ∧
      parse sampleDefaultConfig
        = .ok (["--newline"] ++ (if sp = "" then [] else ["-o", sp]) ++ pySplit "") :=
  c5_amended sampleDefaultConfig "id" "" "" (by decide) (by decide) (by decide) (by decide)

/-- C8: compile does not mutate its input: the caller's dictionary handed
back by the state-passing form of parse is the input itself, binding for
binding, while the tokens are those of parse, whose derivation steps operate
on the working copy only. -/
theorem c8_no_mutation (c : Config) :
    (parseTracked c).2 = c ∧ (parseTracked c).1 = parse c :=
  ⟨rfl, rfl⟩

/-- C3 counterexample: after the webm/m4a/Post Processing update sequence,
the stage of the job record is Active — "Post Processing" is classified as
an Active sub-status — and not Completed as claimed. -/
theorem c3_counterexample : c3_item.stage = "Active" ∧ c3_item.stage ≠ "Completed" := by
  refine ⟨by decide, by decide⟩

/-- C3 (amended): the update sequence records exactly the sizes 10485760.00
and 3617587.20 followed by their sum 14103347.20, and leaves the stage equal
to Active. -/
theorem c3_amended :
    c3_item.filesizes = [(10485760.00 : ℚ), 3617587.20, 14103347.20] ∧
    (10485760.00 : ℚ) + 3617587.20 = 14103347.20 ∧
    c3_item.stage = "Active" := by
  have h1 : to_bytes "10.00MiB" = some ((10485760.00 : ℚ)) := by
    have h : to_bytes_parts "10.00MiB" = some (1000, 100, 1048576) := by decide
    rw [to_bytes, h]
    norm_num
  have h2 : to_bytes "3.45MiB" = some ((3617587.20 : ℚ)) := by
    have h : to_bytes_parts "3.45MiB" = some (345, 100, 1048576) := by decide
    rw [to_bytes, h]
    norm_num
  refine ⟨?_, by norm_num, by decide⟩
  simp [c3_item, update_stats, mkDownloadItem, default_values, h1, h2, List.lookup,
    set_stage]
  norm_num

/-- C4: reset fails with IllegalReset exactly on Active records; on records
in any other stage it returns the record to Queued with cleared path, empty
per-file sequences and the construction-time snapshot. -/
theorem c4_reset (d : DownloadItem) :
    (d.stage = "Active" → reset d = .error .illegalReset) ∧
    (d.stage ≠ "Active" →
      reset d = .ok { d with
        stage := "Queued"
        path := ""
        filenames := []
        extensions := []
        filesizes := []
        progress_stats := default_values d.url }) := by
  constructor <;> intro h <;> simp [reset, h]

/-- C4 witness: reset on an Active record fails with IllegalReset; reset on a
Completed record restores the construction-time state. -/
theorem c4_reset_witness :
    reset itemActive = .error .illegalReset ∧
    reset itemCompleted = .ok { itemCompleted with
      stage := "Queued"
      path := ""
      filenames := []
      extensions := []
      filesizes := []
      progress_stats := default_values itemCompleted.url } :=
  ⟨(c4_reset itemActive).1 rfl, (c4_reset itemCompleted).2 (by decide)⟩

/-- Agreement transfers through pyLookup on an agreed key. -/
theorem pyLookup_agree {P : String → Prop} {c₁ c₂ : Config} (h : AgreeOn P c₁ c₂)
    {k : String} (hk : P k) : pyLookup c₁ k = pyLookup c₂ k := by
  unfold pyLookup
  rw [h k hk]

/-- Agreement transfers through pyLookupStr on an agreed key. -/
theorem pyLookupStr_agree {P : String → Prop} {c₁ c₂ : Config} (h : AgreeOn P c₁ c₂)
    {k : String} (hk : P k) : pyLookupStr c₁ k = pyLookupStr c₂ k := by
  unfold pyLookupStr
  rw [h k hk]

/-- Agreement is preserved by pushing the same binding on both sides. -/
theorem agreeOn_cons {P : String → Prop} {c₁ c₂ : Config} (h : AgreeOn P c₁ c₂)
    (a : String) (v : Value) : AgreeOn P ((a, v) :: c₁) ((a, v) :: c₂) := by
  intro k hk
  by_cases hka : k = a
  · subst hka
    rw [lookup_cons_self, lookup_cons_self]
  · rw [lookup_cons_ne v c₁ hka, lookup_cons_ne v c₂ hka]
    exact h k hk

/-- Case analysis on the lifted agreement relation. -/
theorem exceptAgreeOn_elim {P : String → Prop} {x y : Except ParseError Config}
    (h : ExceptAgreeOn P x y) :
    (∃ e, x = .error e ∧ y = .error e) ∨
    (∃ d₁ d₂, x = .ok d₁ ∧ y = .ok d₂ ∧ AgreeOn P d₁ d₂) := by
  cases x with
  | error e =>
    cases y with
    | error e2 =>
      left
      have he : e = e2 := h
      exact ⟨e, rfl, by rw [he]⟩
    | ok d => exact absurd h (by simp [ExceptAgreeOn])
  | ok d1 =>
    cases y with
    | error e => exact absurd h (by simp [ExceptAgreeOn])
    | ok d2 => exact Or.inr ⟨d1, d2, rfl, rfl, h⟩

/-- Agreement transfers through the requirement lookups, when every
requirement key is agreed. -/
theorem lookupAll_agree {P : String → Prop} {c₁ c₂ : Config} (h : AgreeOn P c₁ c₂) :
    ∀ (rs : List String), (∀ r ∈ rs, P r) → lookupAll c₁ rs = lookupAll c₂ rs := by
  intro rs
  induction rs with
  | nil => intro _; rfl
  | cons r rest ih =>
    intro hr
    unfold lookupAll
    rw [pyLookup_agree h (hr r (List.mem_cons_self r rest)),
      ih (fun x hx => hr x (List.mem_cons_of_mem r hx))]

/-- Agreement transfers through the requirement check, when every declared
requirement key is agreed. -/
theorem check_requirements_agree {P : String → Prop} {c₁ c₂ : Config}
    (h : AgreeOn P c₁ c₂) (o : OptionHolder) (hr : ∀ r ∈ reqNames o, P r) :
    o.check_requirements c₁ = o.check_requirements c₂ := by
  unfold OptionHolder.check_requirements
  cases hreq : o.requirements with
  | none => rfl
  | some reqs =>
    have hr2 : ∀ r ∈ reqs, P r := by
      intro r hrr
      apply hr
      simp [reqNames, hreq, hrr]
    simp only [lookupAll_agree h reqs hr2]

/-- Agreement transfers through the save-path build. -/
theorem build_savepath_agree {P : String → Prop} {c₁ c₂ : Config} (h : AgreeOn P c₁ c₂)
    (h1 : P "save_path") (h2 : P "output_format") (h3 : P "output_template") :
    ExceptAgreeOn P (build_savepath c₁) (build_savepath c₂) := by
  unfold build_savepath
  rw [pyLookupStr_agree h h1, pyLookup_agree h h2, pyLookupStr_agree h h3]
  cases hsp : pyLookupStr c₂ "save_path" with
  | error e => exact rfl
  | ok sp =>
    cases hof : pyLookup c₂ "output_format" with
    | error e => exact rfl
    | ok ofv =>
      by_cases hb1 : pyEq ofv (Value.s "id") = true
      · simp only [hb1, if_true]
        exact agreeOn_cons h _ _
      · have hb1f : pyEq ofv (Value.s "id") = false := by
          revert hb1
          cases pyEq ofv (Value.s "id") <;> simp
        by_cases hb2 : pyEq ofv (Value.s "title") = true
        · simp only [hb1f, hb2, if_true, Bool.false_eq_true, if_false]
          exact agreeOn_cons h _ _
        · have hb2f : pyEq ofv (Value.s "title") = false := by
            revert hb2
            cases pyEq ofv (Value.s "title") <;> simp
          simp only [hb1f, hb2f, Bool.false_eq_true, if_false]
          cases htm : pyLookupStr c₂ "output_template" with
          | error e => exact rfl
          | ok tmpl => exact agreeOn_cons h _ _

/-- Agreement transfers through the video-format build. -/
theorem build_videoformat_agree {P : String → Prop} {c₁ c₂ : Config} (h : AgreeOn P c₁ c₂)
    (h1 : P "video_format") (h2 : P "second_video_format") :
    ExceptAgreeOn P (build_videoformat c₁) (build_videoformat c₂) := by
  unfold build_videoformat
  rw [pyLookup_agree h h1, pyLookup_agree h h2]
  cases hvf : pyLookup c₂ "video_format" with
  | error e => exact rfl
  | ok vf =>
    by_cases hb1 : pyNe vf (Value.s "0") = true
    · simp only [hb1, if_true]
      cases hsv : pyLookup c₂ "second_video_format" with
      | error e => exact rfl
      | ok svf =>
        by_cases hb2 : pyNe svf (Value.s "0") = true
        · simp only [hb2, if_true]
          cases vf with
          | s vfs =>
            cases svf with
            | s svfs => exact agreeOn_cons h _ _
            | b bv => exact rfl
            | i iv => exact rfl
          | b bv => exact rfl
          | i iv => exact rfl
        · have hb2f : pyNe svf (Value.s "0") = false := by
            revert hb2
            cases pyNe svf (Value.s "0") <;> simp
          simp only [hb2f, Bool.false_eq_true, if_false]
          exact h
    · have hb1f : pyNe vf (Value.s "0") = false := by
        revert hb1
        cases pyNe vf (Value.s "0") <;> simp
      simp only [hb1f, Bool.false_eq_true, if_false]
      exact h

/-- Agreement transfers through one filesize block. -/
theorem build_one_filesize_agree {P : String → Prop} {c₁ c₂ : Config}
    (key unitKey : String) (h : AgreeOn P c₁ c₂) (h1 : P key) (h2 : P unitKey) :
    ExceptAgreeOn P (build_one_filesize key unitKey c₁) (build_one_filesize key unitKey c₂) := by
  unfold build_one_filesize
  rw [pyLookup_agree h h1, pyLookupStr_agree h h2]
  cases hv : pyLookup c₂ key with
  | error e => exact rfl
  | ok v =>
    by_cases hb : pyTruthy v = true
    · simp only [hb, if_true]
      cases hu : pyLookupStr c₂ unitKey with
      | error e => exact rfl
      | ok unit => exact agreeOn_cons h _ _
    · have hbf : pyTruthy v = false := by
        revert hb
        cases pyTruthy v <;> simp
      simp only [hbf, Bool.false_eq_true, if_false]
      exact h

/-- Agreement transfers through the filesize build. -/
theorem build_filesizes_agree {P : String → Prop} {c₁ c₂ : Config} (h : AgreeOn P c₁ c₂)
    (h1 : P "min_filesize") (h2 : P "min_filesize_unit")
    (h3 : P "max_filesize") (h4 : P "max_filesize_unit") :
    ExceptAgreeOn P (build_filesizes c₁) (build_filesizes c₂) := by
  unfold build_filesizes
  rcases exceptAgreeOn_elim (build_one_filesize_agree "min_filesize" "min_filesize_unit" h h1 h2)
    with ⟨e, hx, hy⟩ | ⟨d1, d2, hx, hy, hA⟩
  · simp only [hx, hy]
    exact rfl
  · simp only [hx, hy]
    exact build_one_filesize_agree "max_filesize" "max_filesize_unit" hA h3 h4

/-- Agreement transfers through the whole derivation. -/
theorem deriveConfig_agree {P : String → Prop} {c₁ c₂ : Config} (h : AgreeOn P c₁ c₂)
    (h1 : P "save_path") (h2 : P "output_format") (h3 : P "output_template")
    (h4 : P "video_format") (h5 : P "second_video_format")
    (h6 : P "min_filesize") (h7 : P "min_filesize_unit")
    (h8 : P "max_filesize") (h9 : P "max_filesize_unit") :
    ExceptAgreeOn P (deriveConfig c₁) (deriveConfig c₂) := by
  unfold deriveConfig
  rcases exceptAgreeOn_elim (build_savepath_agree h h1 h2 h3)
    with ⟨e, hx, hy⟩ | ⟨d1, d2, hx, hy, hA⟩
  · simp only [hx, hy]
    exact rfl
  · simp only [hx, hy]
    rcases exceptAgreeOn_elim (build_videoformat_agree hA h4 h5)
      with ⟨e, hx2, hy2⟩ | ⟨e1, e2, hx2, hy2, hA2⟩
    · simp only [hx2, hy2]
      exact rfl
    · simp only [hx2, hy2]
      exact build_filesizes_agree hA2 h6 h7 h8 h9

/-- Agreement transfers through the schema walk, provided that for each
entry either its name is agreed or its requirement check fails. -/
theorem parseOptions_agree {P : String → Prop} {d₁ d₂ : Config} (h : AgreeOn P d₁ d₂) :
    ∀ (opts : List OptionHolder) (acc : List String),
      (∀ o ∈ opts, (∀ r ∈ reqNames o, P r) ∧
        (P o.name ∨ o.check_requirements d₁ = .ok false)) →
      parseOptions opts d₁ acc = parseOptions opts d₂ acc := by
  intro opts
  induction opts with
  | nil => intro acc _; rfl
  | cons o rest ih =>
    intro acc hopts
    obtain ⟨hreq, hname⟩ := hopts o (List.mem_cons_self o rest)
    have htail := fun o' ho' => hopts o' (List.mem_cons_of_mem o ho')
    unfold parseOptions
    rw [check_requirements_agree h o hreq]
    cases hc : o.check_requirements d₂ with
    | error e => rfl
    | ok b =>
      cases b with
      | false => exact ih acc htail
      | true =>
        have hP : P o.name := by
          rcases hname with hP | hff
          · exact hP
          · rw [check_requirements_agree h o hreq] at hff
            have := hc.symm.trans hff
            exact absurd this (by simp)
        rw [pyLookup_agree h hP]
        cases hv : pyLookup d₂ o.name with
        | error e => rfl
        | ok v =>
          by_cases hne : pyNe v o.default_value = true
          · simp only [hne, if_true]
            exact ih _ htail
          · have hne2 : pyNe v o.default_value = false := by
              revert hne
              cases pyNe v o.default_value <;> simp
            simp only [hne2, Bool.false_eq_true, if_false]
            exact ih acc htail

/-- C7: compile is deterministic and stateless — it depends only on the
key-to-value mapping of its input: any two configurations that agree on
every lookup compile to identical results. -/
theorem c7_deterministic (a b : Config)
    (h : ∀ k, List.lookup k a = List.lookup k b) : parse a = parse b := by
  have hA : AgreeOn (fun _ => True) a b := fun k _ => h k
  have hd := deriveConfig_agree hA trivial trivial trivial trivial trivial trivial
    trivial trivial trivial
  unfold parse
  rcases exceptAgreeOn_elim hd with ⟨e, hx, hy⟩ | ⟨d₁, d₂, hx, hy, hAg⟩
  · simp only [hx, hy]
  · simp only [hx, hy]
    rw [parseOptions_agree hAg ydl_options ["--newline"]
      (fun o _ => ⟨fun r _ => trivial, Or.inl trivial⟩)]
    rw [pyLookupStr_agree hAg trivial]

/-- C7 witness: two structurally different dictionaries with the same
lookups — a shadowed duplicate binding — compile identically. -/
theorem c7_deterministic_witness :
    parse [("a", Value.s "1"), ("a", Value.s "2")] = parse [("a", Value.s "1")] :=
  c7_deterministic _ _ (by
    intro k
    by_cases hk : k = "a"
    · subst hk
      rfl
    · simp [List.lookup, beq_eq_false_iff_ne.mpr hk])

/-- Erasing one key leaves every other key's lookup unchanged. -/
theorem lookup_eraseKey_ne {bad k : String} (hk : k ≠ bad) (c : Config) :
    List.lookup k (eraseKey bad c) = List.lookup k c := by
  induction c with
  | nil => rfl
  | cons p rest ih =>
    obtain ⟨a, v⟩ := p
    by_cases ha : a = bad
    · subst ha
      have hfc : eraseKey a ((a, v) :: rest) = eraseKey a rest := by
        simp [eraseKey, List.filter_cons]
      rw [hfc, lookup_cons_ne v rest hk, ih]
    · have hfc : eraseKey bad ((a, v) :: rest) = (a, v) :: eraseKey bad rest := by
        simp [eraseKey, List.filter_cons, ha]
      rw [hfc]
      by_cases hka : k = a
      · subst hka
        rw [lookup_cons_self, lookup_cons_self]
      · rw [lookup_cons_ne v (eraseKey bad rest) hka, lookup_cons_ne v rest hka, ih]

/-- The erased dictionary agrees with the original on every other key. -/
theorem agreeOn_eraseKey (bad : String) (c : Config) :
    AgreeOn (fun k => k ≠ bad) (eraseKey bad c) c :=
  fun _ hk => lookup_eraseKey_ne hk c

/-- Removing one configuration key that no derivation step or passthrough
step reads, and that every schema entry either does not own or owns behind a
failing requirement check, does not change the compile result at all. -/
theorem parse_erase_gated (bad : String) (c : Config)
    (n1 : "save_path" ≠ bad) (n2 : "output_format" ≠ bad) (n3 : "output_template" ≠ bad)
    (n4 : "video_format" ≠ bad) (n5 : "second_video_format" ≠ bad)
    (n6 : "min_filesize" ≠ bad) (n7 : "min_filesize_unit" ≠ bad)
    (n8 : "max_filesize" ≠ bad) (n9 : "max_filesize_unit" ≠ bad)
    (n10 : "cmd_args" ≠ bad)
    (hopts : ∀ d, deriveConfig (eraseKey bad c) = .ok d →
      ∀ o ∈ ydl_options, (∀ r ∈ reqNames o, r ≠ bad) ∧
        (o.name ≠ bad ∨ o.check_requirements d = .ok false)) :
    parse (eraseKey bad c) = parse c := by
  have hA : AgreeOn (fun k => k ≠ bad) (eraseKey bad c) c := agreeOn_eraseKey bad c
  have hd := deriveConfig_agree hA n1 n2 n3 n4 n5 n6 n7 n8 n9
  unfold parse
  rcases exceptAgreeOn_elim hd with ⟨e, hx, hy⟩ | ⟨d₁, d₂, hx, hy, hAg⟩
  · simp only [hx, hy]
  · simp only [hx, hy]
    rw [parseOptions_agree hAg ydl_options ["--newline"] (hopts d₁ hx)]
    rw [pyLookupStr_agree hAg n10]

/-- C10: when a gated schema entry's requirement check fails, compile never
reads that entry's own configuration key: a configuration lacking the key of
such an entry compiles to exactly the same result as one carrying it — for
audio_format and audio_quality when to_audio is falsy, for subs_lang when
write_subs is falsy, and for embed_subs when write_auto_subs and write_subs
are both falsy — so no MissingConfigKey failure arises for that entry. -/
theorem c10_gated_keys (c : Config) :
    (∀ v, List.lookup "to_audio" c = some v → pyTruthy v = false →
      parse (eraseKey "audio_format" c) = parse c ∧
      parse (eraseKey "audio_quality" c) = parse c) ∧
    (∀ v, List.lookup "write_subs" c = some v → pyTruthy v = false →
      parse (eraseKey "subs_lang" c) = parse c) ∧
    (∀ u w, List.lookup "write_auto_subs" c = some u → pyTruthy u = false →
      List.lookup "write_subs" c = some w → pyTruthy w = false →
      parse (eraseKey "embed_subs" c) = parse c) := by
  refine ⟨?_, ?_, ?_⟩
  · intro v hv hvf
    constructor
    · apply parse_erase_gated "audio_format" c (by decide) (by decide) (by decide)
        (by decide) (by decide) (by decide) (by decide) (by decide) (by decide) (by decide)
      intro d hd o ho
      refine ⟨?_, ?_⟩
      · exact (by decide :
          ∀ o ∈ ydl_options, ∀ r ∈ reqNames o, r ≠ "audio_format") o ho
      · by_cases hn : o.name = "audio_format"
        · right
          have hoeq : o = ⟨"audio_format", "--audio-format", Value.s "", some ["to_audio"]⟩ :=
            (by decide : ∀ o ∈ ydl_options, o.name = "audio_format" →
              o = ⟨"audio_format", "--audio-format", Value.s "", some ["to_audio"]⟩) o ho hn
          have hta : List.lookup "to_audio" d = some v := by
            rw [lookup_deriveConfig hd (by decide) (by decide) (by decide) (by decide),
              lookup_eraseKey_ne (by decide) c]
            exact hv
          rw [hoeq]
          simp [OptionHolder.check_requirements, lookupAll, pyLookup, hta, hvf]
        · exact Or.inl hn
    · apply parse_erase_gated "audio_quality" c (by decide) (by decide) (by decide)
        (by decide) (by decide) (by decide) (by decide) (by decide) (by decide) (by decide)
      intro d hd o ho
      refine ⟨?_, ?_⟩
      · exact (by decide :
          ∀ o ∈ ydl_options, ∀ r ∈ reqNames o, r ≠ "audio_quality") o ho
      · by_cases hn : o.name = "audio_quality"
        · right
          have hoeq : o = ⟨"audio_quality", "--audio-quality", Value.s "5", some ["to_audio"]⟩ :=
            (by decide : ∀ o ∈ ydl_options, o.name = "audio_quality" →
              o = ⟨"audio_quality", "--audio-quality", Value.s "5", some ["to_audio"]⟩) o ho hn
          have hta : List.lookup "to_audio" d = some v := by
            rw [lookup_deriveConfig hd (by decide) (by decide) (by decide) (by decide),
              lookup_eraseKey_ne (by decide) c]
            exact hv
          rw [hoeq]
          simp [OptionHolder.check_requirements, lookupAll, pyLookup, hta, hvf]
        · exact Or.inl hn
  · intro v hv hvf
    apply parse_erase_gated "subs_lang" c (by decide) (by decide) (by decide)
      (by decide) (by decide) (by decide) (by decide) (by decide) (by decide) (by decide)
    intro d hd o ho
    refine ⟨?_, ?_⟩
    · exact (by decide :
        ∀ o ∈ ydl_options, ∀ r ∈ reqNames o, r ≠ "subs_lang") o ho
    · by_cases hn : o.name = "subs_lang"
      · right
        have hoeq : o = ⟨"subs_lang", "--sub-lang", Value.s "", some ["write_subs"]⟩ :=
          (by decide : ∀ o ∈ ydl_options, o.name = "subs_lang" →
            o = ⟨"subs_lang", "--sub-lang", Value.s "", some ["write_subs"]⟩) o ho hn
        have hws : List.lookup "write_subs" d = some v := by
          rw [lookup_deriveConfig hd (by decide) (by decide) (by decide) (by decide),
            lookup_eraseKey_ne (by decide) c]
          exact hv
        rw [hoeq]
        simp [OptionHolder.check_requirements, lookupAll, pyLookup, hws, hvf]
      · exact Or.inl hn
  · intro u w hu huf hw hwf
    apply parse_erase_gated "embed_subs" c (by decide) (by decide) (by decide)
      (by decide) (by decide) (by decide) (by decide) (by decide) (by decide) (by decide)
    intro d hd o ho
    refine ⟨?_, ?_⟩
    · exact (by decide :
        ∀ o ∈ ydl_options, ∀ r ∈ reqNames o, r ≠ "embed_subs") o ho
    · by_cases hn : o.name = "embed_subs"
      · right
        have hoeq : o = embed_subs_holder :=
          (by decide : ∀ o ∈ ydl_options, o.name = "embed_subs" →
            o = embed_subs_holder) o ho hn
        have hwa : List.lookup "write_auto_subs" d = some u := by
          rw [lookup_deriveConfig hd (by decide) (by decide) (by decide) (by decide),
            lookup_eraseKey_ne (by decide) c]
          exact hu
        have hws : List.lookup "write_subs" d = some w := by
          rw [lookup_deriveConfig hd (by decide) (by decide) (by decide) (by decide),
            lookup_eraseKey_ne (by decide) c]
          exact hw
        rw [hoeq]
        simp [OptionHolder.check_requirements, embed_subs_holder, lookupAll, pyLookup,
          hwa, hws, huf, hwf]
      · exact Or.inl hn

/-- C10 witness: on the sample default configuration — where to_audio,
write_auto_subs and write_subs are all false — removing any gated entry's
own key leaves the compile result unchanged. -/
theorem c10_gated_keys_witness :
    (parse (eraseKey "audio_format" sampleDefaultConfig) = parse sampleDefaultConfig ∧
     parse (eraseKey "audio_quality" sampleDefaultConfig) = parse sampleDefaultConfig) ∧
    parse (eraseKey "subs_lang" sampleDefaultConfig) = parse sampleDefaultConfig ∧
    parse (eraseKey "embed_subs" sampleDefaultConfig) = parse sampleDefaultConfig :=
  ⟨(c10_gated_keys sampleDefaultConfig).1 (Value.b false) (by decide) (by decide),
   (c10_gated_keys sampleDefaultConfig).2.1 (Value.b false) (by decide) (by decide),
   (c10_gated_keys sampleDefaultConfig).2.2 (Value.b false) (Value.b false)
     (by decide) (by decide) (by decide) (by decide)⟩

/-- A string-typed configuration binds every present strKeys key to a
string. -/
theorem strTyped_lookup {c : Config} (h : strTyped c = true) {k : String}
    (hk : k ∈ strKeys) {v : Value} (hv : List.lookup k c = some v) :
    ∃ s, v = Value.s s := by
  unfold strTyped at h
  rw [List.all_eq_true] at h
  have h2 := h k hk
  simp only [hv] at h2
  cases v with
  | s sv => exact ⟨sv, rfl⟩
  | b bv => exact absurd h2 (by simp)
  | i iv => exact absurd h2 (by simp)

/-- Pushing a string binding preserves string-typedness. -/
theorem strTyped_cons_s {c : Config} (h : strTyped c = true) (a s : String) :
    strTyped ((a, Value.s s) :: c) = true := by
  unfold strTyped at h ⊢
  rw [List.all_eq_true] at h ⊢
  intro k hk
  by_cases hka : k = a
  · subst hka
    simp [lookup_cons_self]
  · simp only [lookup_cons_ne (Value.s s) c hka]
    exact h k hk

/-- The save-path build preserves string-typedness. -/
theorem build_savepath_strTyped {c d : Config} (h : strTyped c = true)
    (hb : build_savepath c = .ok d) : strTyped d = true := by
  obtain ⟨sv, rfl⟩ := build_savepath_shape hb
  exact strTyped_cons_s h _ _

/-- The video-format build preserves string-typedness. -/
theorem build_videoformat_strTyped {c d : Config} (h : strTyped c = true)
    (hb : build_videoformat c = .ok d) : strTyped d = true := by
  rcases build_videoformat_shape hb with rfl | ⟨sv, rfl⟩
  · exact h
  · exact strTyped_cons_s h _ _

/-- One filesize block preserves string-typedness. -/
theorem build_one_filesize_strTyped {key unitKey : String} {c d : Config}
    (h : strTyped c = true) (hb : build_one_filesize key unitKey c = .ok d) :
    strTyped d = true := by
  rcases build_one_filesize_shape hb with rfl | ⟨sv, rfl⟩
  · exact h
  · exact strTyped_cons_s h _ _

/-- The whole derivation preserves string-typedness. -/
theorem deriveConfig_strTyped {c d : Config} (h : strTyped c = true)
    (hb : deriveConfig c = .ok d) : strTyped d = true := by
  obtain ⟨d1, d2, hs, hv, hf⟩ := deriveConfig_elim hb
  obtain ⟨dm, hmin, hmax⟩ := build_filesizes_elim hf
  exact build_one_filesize_strTyped
    (build_one_filesize_strTyped
      (build_videoformat_strTyped (build_savepath_strTyped h hs) hv) hmin) hmax

/-- A failing pyLookupStr over a string-typed configuration is a missing-key
error on a genuinely absent key. -/
theorem pyLookupStr_error_strTyped {c : Config} {k : String} {e : ParseError}
    (hst : strTyped c = true) (hk : k ∈ strKeys) (h : pyLookupStr c k = .error e) :
    e = .missingConfigKey k ∧ List.lookup k c = none := by
  unfold pyLookupStr at h
  cases hl : List.lookup k c with
  | none =>
    simp only [hl] at h
    injection h with h2
    exact ⟨h2.symm, rfl⟩
  | some v =>
    obtain ⟨sv, rfl⟩ := strTyped_lookup hst hk hl
    simp only [hl] at h
    exact absurd h (by simp)

/-- A failing requirement lookup is a missing-key error on an absent key. -/
theorem lookupAll_error {d : Config} :
    ∀ {rs : List String} {e : ParseError}, lookupAll d rs = .error e →
      ∃ k, e = .missingConfigKey k ∧ List.lookup k d = none := by
  intro rs
  induction rs with
  | nil => intro e h; exact absurd h (by simp [lookupAll])
  | cons r rest ih =>
    intro e h
    unfold lookupAll at h
    cases hr : pyLookup d r with
    | error e1 =>
      simp only [hr] at h
      injection h with h2
      obtain ⟨hn, he⟩ := pyLookup_eq_error.mp hr
      exact ⟨r, by rw [← h2, he], hn⟩
    | ok v =>
      simp only [hr] at h
      cases hrest : lookupAll d rest with
      | error e1 =>
        simp only [hrest] at h
        injection h with h2
        obtain ⟨k, he, hn⟩ := ih hrest
        exact ⟨k, by rw [← h2, he], hn⟩
      | ok vs =>
        simp only [hrest] at h
        exact absurd h (by simp)

/-- A failing requirement check is a missing-key error on an absent key. -/
theorem check_requirements_error {o : OptionHolder} {d : Config} {e : ParseError}
    (h : o.check_requirements d = .error e) :
    ∃ k, e = .missingConfigKey k ∧ List.lookup k d = none := by
  unfold OptionHolder.check_requirements at h
  cases hreq : o.requirements with
  | none => simp only [hreq] at h; exact absurd h (by simp)
  | some reqs =>
    simp only [hreq] at h
    cases hl : lookupAll d reqs with
    | error e1 =>
      simp only [hl] at h
      injection h with h2
      obtain ⟨k, he, hn⟩ := lookupAll_error hl
      exact ⟨k, by rw [← h2, he], hn⟩
    | ok vs => simp only [hl] at h; exact absurd h (by simp)

/-- A failing schema walk is a missing-key error on an absent key. -/
theorem parseOptions_error {d : Config} :
    ∀ {opts : List OptionHolder} {acc : List String} {e : ParseError},
      parseOptions opts d acc = .error e →
      ∃ k, e = .missingConfigKey k ∧ List.lookup k d = none := by
  intro opts
  induction opts with
  | nil => intro acc e h; exact absurd h (by simp [parseOptions])
  | cons o rest ih =>
    intro acc e h
    unfold parseOptions at h
    cases hc : o.check_requirements d with
    | error e1 =>
      simp only [hc] at h
      injection h with h2
      obtain ⟨k, he, hn⟩ := check_requirements_error hc
      exact ⟨k, by rw [← h2, he], hn⟩
    | ok b =>
      simp only [hc] at h
      cases b with
      | false => exact ih h
      | true =>
        simp only [if_true] at h
        cases hv : pyLookup d o.name with
        | error e1 =>
          simp only [hv] at h
          injection h with h2
          obtain ⟨hn, he⟩ := pyLookup_eq_error.mp hv
          exact ⟨o.name, by rw [← h2, he], hn⟩
        | ok v =>
          simp only [hv] at h
          by_cases hne : pyNe v o.default_value = true
          · simp only [hne, if_true] at h
            exact ih h
          · have hne2 : pyNe v o.default_value = false := by
              revert hne
              cases pyNe v o.default_value <;> simp
            simp only [hne2, Bool.false_eq_true, if_false] at h
            exact ih h

/-- A failing save-path build over a string-typed configuration is a
missing-key error on an absent key. -/
theorem build_savepath_error {c : Config} {e : ParseError} (hst : strTyped c = true)
    (h : build_savepath c = .error e) :
    ∃ k, e = .missingConfigKey k ∧ List.lookup k c = none := by
  unfold build_savepath at h
  cases hsp : pyLookupStr c "save_path" with
  | error e1 =>
    simp only [hsp] at h
    injection h with h2
    obtain ⟨he, hn⟩ := pyLookupStr_error_strTyped hst (by decide) hsp
    exact ⟨"save_path", by rw [← h2, he], hn⟩
  | ok sp =>
    simp only [hsp] at h
    cases hof : pyLookup c "output_format" with
    | error e1 =>
      simp only [hof] at h
      injection h with h2
      obtain ⟨hn, he⟩ := pyLookup_eq_error.mp hof
      exact ⟨"output_format", by rw [← h2, he], hn⟩
    | ok ofv =>
      simp only [hof] at h
      by_cases h1 : pyEq ofv (Value.s "id") = true
      · simp only [h1, if_true] at h
        exact absurd h (by simp)
      · have h1f : pyEq ofv (Value.s "id") = false := by
          revert h1
          cases pyEq ofv (Value.s "id") <;> simp
        by_cases h2 : pyEq ofv (Value.s "title") = true
        · simp only [h1f, h2, Bool.false_eq_true, if_false, if_true] at h
          exact absurd h (by simp)
        · have h2f : pyEq ofv (Value.s "title") = false := by
            revert h2
            cases pyEq ofv (Value.s "title") <;> simp
          simp only [h1f, h2f, Bool.false_eq_true, if_false] at h
          cases htm : pyLookupStr c "output_template" with
          | error e1 =>
            simp only [htm] at h
            injection h with hinj
            obtain ⟨he, hn⟩ := pyLookupStr_error_strTyped hst (by decide) htm
            exact ⟨"output_template", by rw [← hinj, he], hn⟩
          | ok tmpl =>
            simp only [htm] at h
            exact absurd h (by simp)

/-- A failing video-format build over a string-typed configuration is a
missing-key error on an absent key. -/
theorem build_videoformat_error {c : Config} {e : ParseError} (hst : strTyped c = true)
    (h : build_videoformat c = .error e) :
    ∃ k, e = .missingConfigKey k ∧ List.lookup k c = none := by
  unfold build_videoformat at h
  cases hvf : pyLookup c "video_format" with
  | error e1 =>
    simp only [hvf] at h
    injection h with h2
    obtain ⟨hn, he⟩ := pyLookup_eq_error.mp hvf
    exact ⟨"video_format", by rw [← h2, he], hn⟩
  | ok vf =>
    simp only [hvf] at h
    by_cases h1 : pyNe vf (Value.s "0") = true
    · simp only [h1, if_true] at h
      cases hsv : pyLookup c "second_video_format" with
      | error e1 =>
        simp only [hsv] at h
        injection h with h2
        obtain ⟨hn, he⟩ := pyLookup_eq_error.mp hsv
        exact ⟨"second_video_format", by rw [← h2, he], hn⟩
      | ok svf =>
        simp only [hsv] at h
        by_cases h2 : pyNe svf (Value.s "0") = true
        · simp only [h2, if_true] at h
          obtain ⟨s1, rfl⟩ := strTyped_lookup hst (by decide) (pyLookup_eq_ok.mp hvf)
          obtain ⟨s2, rfl⟩ := strTyped_lookup hst (by decide) (pyLookup_eq_ok.mp hsv)
          exact absurd h (by simp)
        · have h2f : pyNe svf (Value.s "0") = false := by
            revert h2
            cases pyNe svf (Value.s "0") <;> simp
          simp only [h2f, Bool.false_eq_true, if_false] at h
          exact absurd h (by simp)
    · have h1f : pyNe vf (Value.s "0") = false := by
        revert h1
        cases pyNe vf (Value.s "0") <;> simp
      simp only [h1f, Bool.false_eq_true, if_false] at h
      exact absurd h (by simp)

/-- A failing filesize block over a string-typed configuration, with a
string-typed unit key, is a missing-key error on an absent key. -/
theorem build_one_filesize_error {key unitKey : String} {c : Config} {e : ParseError}
    (hst : strTyped c = true) (hu : unitKey ∈ strKeys)
    (h : build_one_filesize key unitKey c = .error e) :
    ∃ k, e = .missingConfigKey k ∧ List.lookup k c = none := by
  unfold build_one_filesize at h
  cases hv : pyLookup c key with
  | error e1 =>
    simp only [hv] at h
    injection h with h2
    obtain ⟨hn, he⟩ := pyLookup_eq_error.mp hv
    exact ⟨key, by rw [← h2, he], hn⟩
  | ok v =>
    simp only [hv] at h
    by_cases hb : pyTruthy v = true
    · simp only [hb, if_true] at h
      cases hun : pyLookupStr c unitKey with
      | error e1 =>
        simp only [hun] at h
        injection h with h2
        obtain ⟨he, hn⟩ := pyLookupStr_error_strTyped hst hu hun
        exact ⟨unitKey, by rw [← h2, he], hn⟩
      | ok unit =>
        simp only [hun] at h
        exact absurd h (by simp)
    · have hbf : pyTruthy v = false := by
        revert hb
        cases pyTruthy v <;> simp
      simp only [hbf, Bool.false_eq_true, if_false] at h
      exact absurd h (by simp)

/-- A failing derivation over a string-typed configuration is a missing-key
error on a key absent from the input configuration. -/
theorem deriveConfig_error {c : Config} {e : ParseError} (hst : strTyped c = true)
    (h : deriveConfig c = .error e) :
    ∃ k, e = .missingConfigKey k ∧ List.lookup k c = none := by
  unfold deriveConfig at h
  cases hbs : build_savepath c with
  | error e1 =>
    simp only [hbs] at h
    injection h with h2
    obtain ⟨k, he, hn⟩ := build_savepath_error hst hbs
    exact ⟨k, by rw [← h2, he], hn⟩
  | ok d1 =>
    simp only [hbs] at h
    have hst1 := build_savepath_strTyped hst hbs
    obtain ⟨sv1, rfl⟩ := build_savepath_shape hbs
    cases hbv : build_videoformat (("save_path", Value.s sv1) :: c) with
    | error e1 =>
      simp only [hbv] at h
      injection h with h2
      obtain ⟨k, he, hn⟩ := build_videoformat_error hst1 hbv
      exact ⟨k, by rw [← h2, he], lookup_none_cons hn⟩
    | ok d2 =>
      simp only [hbv] at h
      have hst2 := build_videoformat_strTyped hst1 hbv
      unfold build_filesizes at h
      cases hmin : build_one_filesize "min_filesize" "min_filesize_unit" d2 with
      | error e1 =>
        simp only [hmin] at h
        injection h with h2
        obtain ⟨k, he, hn⟩ := build_one_filesize_error hst2 (by decide) hmin
        have hn2 : List.lookup k (("save_path", Value.s sv1) :: c) = none := by
          rcases build_videoformat_shape hbv with rfl | ⟨w, rfl⟩
          · exact hn
          · exact lookup_none_cons hn
        exact ⟨k, by rw [← h2, he], lookup_none_cons hn2⟩
      | ok dm =>
        simp only [hmin] at h
        have hst3 := build_one_filesize_strTyped hst2 hmin
        obtain ⟨k, he, hn⟩ := build_one_filesize_error hst3 (by decide) h
        have hn2 : List.lookup k d2 = none := by
          rcases build_one_filesize_shape hmin with rfl | ⟨w, rfl⟩
          · exact hn
          · exact lookup_none_cons hn
        have hn3 : List.lookup k (("save_path", Value.s sv1) :: c) = none := by
          rcases build_videoformat_shape hbv with rfl | ⟨w, rfl⟩
          · exact hn2
          · exact lookup_none_cons hn2
        exact ⟨k, he, lookup_none_cons hn3⟩

/-- Every requirement looked up by a successful lookupAll is present. -/
theorem lookupAll_ok_mem {d : Config} :
    ∀ {rs : List String} {vs : List Value}, lookupAll d rs = .ok vs →
      ∀ r ∈ rs, (List.lookup r d).isSome = true := by
  intro rs
  induction rs with
  | nil => intro vs _ r hr; exact absurd hr (List.not_mem_nil r)
  | cons q rest ih =>
    intro vs h r hr
    unfold lookupAll at h
    cases hq : pyLookup d q with
    | error e => simp only [hq] at h; exact absurd h (by simp)
    | ok v =>
      simp only [hq] at h
      cases hrest : lookupAll d rest with
      | error e => simp only [hrest] at h; exact absurd h (by simp)
      | ok vs2 =>
        rcases List.mem_cons.mp hr with rfl | hmem
        · rw [pyLookup_eq_ok.mp hq]; rfl
        · exact ih hrest r hmem

/-- A requirement check that returns at all has read every declared
requirement key. -/
theorem check_requirements_ok_reqs {o : OptionHolder} {d : Config} {b : Bool}
    (h : o.check_requirements d = .ok b) :
    ∀ reqs, o.requirements = some reqs → ∀ r ∈ reqs, (List.lookup r d).isSome = true := by
  intro reqs hreq r hr
  unfold OptionHolder.check_requirements at h
  simp only [hreq] at h
  cases hl : lookupAll d reqs with
  | error e => simp only [hl] at h; exact absurd h (by simp)
  | ok vs => exact lookupAll_ok_mem hl r hr

/-- A successful schema walk has read every ungated entry's own key and
every declared requirement key. -/
theorem parseOptions_ok_mem {d : Config} :
    ∀ {opts : List OptionHolder} {acc res : List String},
      parseOptions opts d acc = .ok res →
      ∀ o ∈ opts,
        (o.requirements = none → (List.lookup o.name d).isSome = true) ∧
        (∀ reqs, o.requirements = some reqs → ∀ r ∈ reqs, (List.lookup r d).isSome = true) := by
  intro opts
  induction opts with
  | nil => intro acc res _ o ho; exact absurd ho (List.not_mem_nil o)
  | cons p rest ih =>
    intro acc res h o ho
    unfold parseOptions at h
    cases hc : p.check_requirements d with
    | error e => simp only [hc] at h; exact absurd h (by simp)
    | ok b =>
      simp only [hc] at h
      rcases List.mem_cons.mp ho with rfl | hmem
      · constructor
        · intro hreqnone
          have hb := check_requirements_ok hc
          simp only [hreqnone] at hb
          subst hb
          simp only [if_true] at h
          cases hv : pyLookup d o.name with
          | error e => simp only [hv] at h; exact absurd h (by simp)
          | ok v => rw [pyLookup_eq_ok.mp hv]; rfl
        · exact check_requirements_ok_reqs hc
      · cases b with
        | false => exact ih h o hmem
        | true =>
          simp only [if_true] at h
          cases hv : pyLookup d p.name with
          | error e => simp only [hv] at h; exact absurd h (by simp)
          | ok v =>
            simp only [hv] at h
            by_cases hne : pyNe v p.default_value = true
            · simp only [hne, if_true] at h
              exact ih h o hmem
            · have hne2 : pyNe v p.default_value = false := by
                revert hne
                cases pyNe v p.default_value <;> simp
              simp only [hne2, Bool.false_eq_true, if_false] at h
              exact ih h o hmem

/-- A successful save-path build has read save_path and output_format. -/
theorem build_savepath_reads {c d : Config} (h : build_savepath c = .ok d) :
    (List.lookup "save_path" c).isSome = true ∧
    (List.lookup "output_format" c).isSome = true := by
  unfold build_savepath at h
  cases hsp : pyLookupStr c "save_path" with
  | error e => simp only [hsp] at h; exact absurd h (by simp)
  | ok sp =>
    simp only [hsp] at h
    cases hof : pyLookup c "output_format" with
    | error e => simp only [hof] at h; exact absurd h (by simp)
    | ok ofv =>
      constructor
      · rw [pyLookupStr_eq_ok.mp hsp]; rfl
      · rw [pyLookup_eq_ok.mp hof]; rfl

/-- A successful video-format build has read video_format. -/
theorem build_videoformat_reads {c d : Config} (h : build_videoformat c = .ok d) :
    (List.lookup "video_format" c).isSome = true := by
  unfold build_videoformat at h
  cases hvf : pyLookup c "video_format" with
  | error e => simp only [hvf] at h; exact absurd h (by simp)
  | ok vf => rw [pyLookup_eq_ok.mp hvf]; rfl

/-- A successful filesize block has read its threshold key. -/
theorem build_one_filesize_reads {key unitKey : String} {c d : Config}
    (h : build_one_filesize key unitKey c = .ok d) :
    (List.lookup key c).isSome = true := by
  unfold build_one_filesize at h
  cases hv : pyLookup c key with
  | error e => simp only [hv] at h; exact absurd h (by simp)
  | ok v => rw [pyLookup_eq_ok.mp hv]; rfl

/-- Over a string-typed configuration, compile either succeeds or fails with
a missing-key error naming a genuinely absent key — nothing else. -/
theorem parse_ok_or_missing (c : Config) (hst : strTyped c = true) :
    (∃ t, parse c = .ok t) ∨
    (∃ k, List.lookup k c = none ∧ parse c = .error (.missingConfigKey k)) := by
  unfold parse
  cases hd : deriveConfig c with
  | error e =>
    obtain ⟨k, he, hn⟩ := deriveConfig_error hst hd
    right
    refine ⟨k, hn, ?_⟩
    simp only [hd]
    rw [he]
  | ok d =>
    have hstd := deriveConfig_strTyped hst hd
    cases hw : parseOptions ydl_options d ["--newline"] with
    | error e =>
      obtain ⟨k, he, hn⟩ := parseOptions_error hw
      right
      refine ⟨k, deriveConfig_lookup_none hd hn, ?_⟩
      simp only [hd, hw]
      rw [he]
    | ok l =>
      cases hcm : pyLookupStr d "cmd_args" with
      | error e =>
        obtain ⟨he, hn⟩ := pyLookupStr_error_strTyped hstd (by decide) hcm
        right
        refine ⟨"cmd_args", deriveConfig_lookup_none hd hn, ?_⟩
        simp only [hd, hw, hcm]
        rw [he]
      | ok g =>
        left
        exact ⟨l ++ pySplit g, by simp only [hd, hw, hcm]⟩

/-- A successful save-path build whose output format selects neither
built-in template has read output_template. -/
theorem build_savepath_reads_template {c d : Config} (h : build_savepath c = .ok d)
    {v : Value} (hov : List.lookup "output_format" c = some v)
    (h1 : pyEq v (Value.s "id") = false) (h2 : pyEq v (Value.s "title") = false) :
    (List.lookup "output_template" c).isSome = true := by
  unfold build_savepath at h
  cases hsp : pyLookupStr c "save_path" with
  | error e => simp only [hsp] at h; exact absurd h (by simp)
  | ok sp =>
    simp only [hsp] at h
    cases hof : pyLookup c "output_format" with
    | error e => simp only [hof] at h; exact absurd h (by simp)
    | ok ofv =>
      simp only [hof] at h
      have hofc := pyLookup_eq_ok.mp hof
      rw [hov] at hofc
      obtain rfl := Option.some.inj hofc
      simp only [h1, h2, Bool.false_eq_true, if_false] at h
      cases htm : pyLookupStr c "output_template" with
      | error e => simp only [htm] at h; exact absurd h (by simp)
      | ok tmpl => rw [pyLookupStr_eq_ok.mp htm]; rfl

/-- A successful video-format build whose primary selector is set has read
second_video_format. -/
theorem build_videoformat_reads_snd {c d : Config} (h : build_videoformat c = .ok d)
    {v : Value} (hvv : List.lookup "video_format" c = some v)
    (h1 : pyNe v (Value.s "0") = true) :
    (List.lookup "second_video_format" c).isSome = true := by
  unfold build_videoformat at h
  cases hvf : pyLookup c "video_format" with
  | error e => simp only [hvf] at h; exact absurd h (by simp)
  | ok vf =>
    simp only [hvf] at h
    have hvfc := pyLookup_eq_ok.mp hvf
    rw [hvv] at hvfc
    obtain rfl := Option.some.inj hvfc
    simp only [h1, if_true] at h
    cases hsv : pyLookup c "second_video_format" with
    | error e => simp only [hsv] at h; exact absurd h (by simp)
    | ok svf => rw [pyLookup_eq_ok.mp hsv]; rfl

/-- A successful filesize block whose threshold is truthy has read the unit
key. -/
theorem build_one_filesize_reads_unit {key unitKey : String} {c d : Config}
    (h : build_one_filesize key unitKey c = .ok d)
    {v : Value} (hkv : List.lookup key c = some v) (h1 : pyTruthy v = true) :
    (List.lookup unitKey c).isSome = true := by
  unfold build_one_filesize at h
  cases hv : pyLookup c key with
  | error e => simp only [hv] at h; exact absurd h (by simp)
  | ok w =>
    simp only [hv] at h
    have hwc := pyLookup_eq_ok.mp hv
    rw [hkv] at hwc
    obtain rfl := Option.some.inj hwc
    simp only [h1, if_true] at h
    cases hu : pyLookupStr c unitKey with
    | error e => simp only [hu] at h; exact absurd h (by simp)
    | ok unit => rw [pyLookupStr_eq_ok.mp hu]; rfl

/-- A successful schema walk has read the own key of every entry whose
requirement check passes — witnessed by any present truthy requirement. -/
theorem parseOptions_ok_gated {d : Config} :
    ∀ {opts : List OptionHolder} {acc res : List String},
      parseOptions opts d acc = .ok res →
      ∀ o ∈ opts, ∀ reqs, o.requirements = some reqs →
        ∀ r ∈ reqs, ∀ v, List.lookup r d = some v → pyTruthy v = true →
        (List.lookup o.name d).isSome = true := by
  intro opts
  induction opts with
  | nil => intro acc res _ o ho; exact absurd ho (List.not_mem_nil o)
  | cons p rest ih =>
    intro acc res h o ho reqs hreq r hr v hrv htr
    unfold parseOptions at h
    cases hc : p.check_requirements d with
    | error e => simp only [hc] at h; exact absurd h (by simp)
    | ok b =>
      simp only [hc] at h
      rcases List.mem_cons.mp ho with rfl | hmem
      · have hb := check_requirements_ok hc
        simp only [hreq] at hb
        have hbt : b = true := by
          rw [hb, List.any_eq_true]
          refine ⟨r, hr, ?_⟩
          rw [hrv]
          simpa using htr
        subst hbt
        simp only [if_true] at h
        cases hv : pyLookup d o.name with
        | error e => simp only [hv] at h; exact absurd h (by simp)
        | ok w => rw [pyLookup_eq_ok.mp hv]; rfl
      · cases b with
        | false => exact ih h o hmem reqs hreq r hr v hrv htr
        | true =>
          simp only [if_true] at h
          cases hv : pyLookup d p.name with
          | error e => simp only [hv] at h; exact absurd h (by simp)
          | ok w =>
            simp only [hv] at h
            by_cases hne : pyNe w p.default_value = true
            · simp only [hne, if_true] at h
              exact ih h o hmem reqs hreq r hr v hrv htr
            · have hne2 : pyNe w p.default_value = false := by
                revert hne
                cases pyNe w p.default_value <;> simp
              simp only [hne2, Bool.false_eq_true, if_false] at h
              exact ih h o hmem reqs hreq r hr v hrv htr

/-- C6: a string-typed configuration missing any key that compilation
references — an unconditionally read key, a conditionally read auxiliary key
under its read condition, or a gated schema entry's own name when its
requirement check passes — cannot compile: the call fails with kind
MissingConfigKey naming an absent key, instead of skipping the missing
key. -/
theorem c6_missing_key (c : Config) (k : String) (hst : strTyped c = true)
    (hk : referencedKey c k) (hn : List.lookup k c = none) :
    ∃ q, List.lookup q c = none ∧ parse c = .error (ParseError.missingConfigKey q) := by
  rcases parse_ok_or_missing c hst with ⟨t, ht⟩ | hmiss
  · exfalso
    unfold referencedKey at hk
    obtain ⟨d, l, cmd, hd, hw, hcm, _⟩ := parse_ok_elim ht
    obtain ⟨d1, d2, hbs, hbv, hbf⟩ := deriveConfig_elim hd
    obtain ⟨dm, hmin, hmax⟩ := build_filesizes_elim hbf
    have hsp := build_savepath_reads hbs
    have hvfc : (List.lookup "video_format" c).isSome = true := by
      have hvf := build_videoformat_reads hbv
      rwa [lookup_build_savepath hbs (by decide)] at hvf
    have hmnc : (List.lookup "min_filesize" c).isSome = true := by
      have hmn := build_one_filesize_reads hmin
      rwa [lookup_build_videoformat hbv (by decide),
        lookup_build_savepath hbs (by decide)] at hmn
    have hmxc : (List.lookup "max_filesize" c).isSome = true := by
      have hmx := build_one_filesize_reads hmax
      rwa [lookup_build_one_filesize hmin (by decide),
        lookup_build_videoformat hbv (by decide),
        lookup_build_savepath hbs (by decide)] at hmx
    have hcmc : (List.lookup "cmd_args" c).isSome = true := by
      have h2 : List.lookup "cmd_args" d = some (Value.s cmd) := pyLookupStr_eq_ok.mp hcm
      rw [lookup_deriveConfig hd (by decide) (by decide) (by decide) (by decide)] at h2
      rw [h2]
      rfl
    have hfold := parseOptions_ok_mem hw
    have hent : ∀ o ∈ ydl_options, o.requirements = none →
        o.name ≠ "save_path" → o.name ≠ "video_format" → o.name ≠ "min_filesize" →
        o.name ≠ "max_filesize" → (List.lookup o.name c).isSome = true := by
      intro o ho hro hn1 hn2 hn3 hn4
      have h2 := (hfold o ho).1 hro
      rwa [lookup_deriveConfig hd hn1 hn2 hn3 hn4] at h2
    have hreqp : ∀ o ∈ ydl_options, ∀ reqs, o.requirements = some reqs →
        ∀ r ∈ reqs, r ≠ "save_path" → r ≠ "video_format" → r ≠ "min_filesize" →
        r ≠ "max_filesize" → (List.lookup r c).isSome = true := by
      intro o ho reqs hreq r hr hn1 hn2 hn3 hn4
      have h2 := (hfold o ho).2 reqs hreq r hr
      rwa [lookup_deriveConfig hd hn1 hn2 hn3 hn4] at h2
    have halways : k ∈ compileAlwaysKeys → (List.lookup k c).isSome = true := by
      intro hka
      fin_cases hka
      · exact hsp.1
      · exact hsp.2
      · exact hvfc
      · exact hmnc
      · exact hmxc
      · exact hcmc
      · exact hent ⟨"playlist_start", "--playlist-start", Value.i 1, none⟩ (by decide) rfl
          (by decide) (by decide) (by decide) (by decide)
      · exact hent ⟨"playlist_end", "--playlist-end", Value.i 0, none⟩ (by decide) rfl
          (by decide) (by decide) (by decide) (by decide)
      · exact hent ⟨"max_downloads", "--max-downloads", Value.i 0, none⟩ (by decide) rfl
          (by decide) (by decide) (by decide) (by decide)
      · exact hent ⟨"username", "-u", Value.s "", none⟩ (by decide) rfl
          (by decide) (by decide) (by decide) (by decide)
      · exact hent ⟨"password", "-p", Value.s "", none⟩ (by decide) rfl
          (by decide) (by decide) (by decide) (by decide)
      · exact hent ⟨"video_password", "--video-password", Value.s "", none⟩ (by decide) rfl
          (by decide) (by decide) (by decide) (by decide)
      · exact hent ⟨"retries", "-R", Value.i 10, none⟩ (by decide) rfl
          (by decide) (by decide) (by decide) (by decide)
      · exact hent ⟨"proxy", "--proxy", Value.s "", none⟩ (by decide) rfl
          (by decide) (by decide) (by decide) (by decide)
      · exact hent ⟨"user_agent", "--user-agent", Value.s "", none⟩ (by decide) rfl
          (by decide) (by decide) (by decide) (by decide)
      · exact hent ⟨"referer", "--referer", Value.s "", none⟩ (by decide) rfl
          (by decide) (by decide) (by decide) (by decide)
      · exact hent ⟨"ignore_errors", "-i", Value.b false, none⟩ (by decide) rfl
          (by decide) (by decide) (by decide) (by decide)
      · exact hent ⟨"write_description", "--write-description", Value.b false, none⟩
          (by decide) rfl (by decide) (by decide) (by decide) (by decide)
      · exact hent ⟨"write_info", "--write-info-json", Value.b false, none⟩ (by decide) rfl
          (by decide) (by decide) (by decide) (by decide)
      · exact hent ⟨"write_thumbnail", "--write-thumbnail", Value.b false, none⟩
          (by decide) rfl (by decide) (by decide) (by decide) (by decide)
      · exact hent ⟨"write_all_subs", "--all-subs", Value.b false, none⟩ (by decide) rfl
          (by decide) (by decide) (by decide) (by decide)
      · exact hent ⟨"write_auto_subs", "--write-auto-sub", Value.b false, none⟩
          (by decide) rfl (by decide) (by decide) (by decide) (by decide)
      · exact hent ⟨"write_subs", "--write-sub", Value.b false, none⟩ (by decide) rfl
          (by decide) (by decide) (by decide) (by decide)
      · exact hent ⟨"keep_video", "-k", Value.b false, none⟩ (by decide) rfl
          (by decide) (by decide) (by decide) (by decide)
      · exact hent ⟨"restrict_filenames", "--restrict-filenames", Value.b false, none⟩
          (by decide) rfl (by decide) (by decide) (by decide) (by decide)
      · exact hent ⟨"to_audio", "-x", Value.b false, none⟩ (by decide) rfl
          (by decide) (by decide) (by decide) (by decide)
    have hpres : (List.lookup k c).isSome = true := by
      rcases hk with hka | ⟨rfl, v, hov, hq1, hq2⟩ | ⟨rfl, v, hvv, hq1⟩ |
        ⟨rfl, v, hmv, hq1⟩ | ⟨rfl, v, hxv, hq1⟩ |
        ⟨o, ho, hnameeq, reqs, hreq, r, hr, v, hrv, htr⟩
      · exact halways hka
      · exact build_savepath_reads_template hbs hov hq1 hq2
      · have hd1v : List.lookup "video_format" d1 = some v := by
          rw [lookup_build_savepath hbs (by decide)]
          exact hvv
        have hs := build_videoformat_reads_snd hbv hd1v hq1
        rwa [lookup_build_savepath hbs (by decide)] at hs
      · have h2v : List.lookup "min_filesize" d2 = some v := by
          rw [lookup_build_videoformat hbv (by decide),
            lookup_build_savepath hbs (by decide)]
          exact hmv
        have hu := build_one_filesize_reads_unit hmin h2v hq1
        rwa [lookup_build_videoformat hbv (by decide),
          lookup_build_savepath hbs (by decide)] at hu
      · have h2v : List.lookup "max_filesize" dm = some v := by
          rw [lookup_build_one_filesize hmin (by decide),
            lookup_build_videoformat hbv (by decide),
            lookup_build_savepath hbs (by decide)]
          exact hxv
        have hu := build_one_filesize_reads_unit hmax h2v hq1
        rwa [lookup_build_one_filesize hmin (by decide),
          lookup_build_videoformat hbv (by decide),
          lookup_build_savepath hbs (by decide)] at hu
      · have hrn : r ∈ reqNames o := by
          unfold reqNames
          rw [hreq]
          exact hr
        obtain ⟨hq1, hq2, hq3, hq4⟩ :=
          (by decide : ∀ x ∈ ydl_options, ∀ q ∈ reqNames x,
            q ≠ "save_path" ∧ q ≠ "video_format" ∧ q ≠ "min_filesize" ∧
            q ≠ "max_filesize") o ho r hrn
        have hrd : List.lookup r d = some v := by
          rw [lookup_deriveConfig hd hq1 hq2 hq3 hq4]
          exact hrv
        have hname := parseOptions_ok_gated hw o ho reqs hreq r hr v hrd htr
        have hsome : o.requirements ≠ none := by
          rw [hreq]
          simp
        obtain ⟨hm1, hm2, hm3, hm4⟩ :=
          (by decide : ∀ x ∈ ydl_options, x.requirements ≠ none →
            x.name ≠ "save_path" ∧ x.name ≠ "video_format" ∧ x.name ≠ "min_filesize" ∧
            x.name ≠ "max_filesize") o ho hsome
        rw [lookup_deriveConfig hd hm1 hm2 hm3 hm4] at hname
        rw [hnameeq] at hname
        exact hname
    rw [hn] at hpres
    exact absurd hpres (by simp)
  · exact hmiss

/-- C6 witness: a string-typed configuration whose output format selects
neither built-in template and which lacks output_template — a conditionally
referenced key — cannot compile: it fails with a missing-key error for an
absent key. -/
theorem c6_missing_key_witness :
    ∃ q, List.lookup q sampleNoTemplateConfig = none ∧
      parse sampleNoTemplateConfig = .error (ParseError.missingConfigKey q) :=
  c6_missing_key sampleNoTemplateConfig "output_template" (by decide)
    (by exact Or.inr (Or.inl ⟨rfl, Value.s "custom", by decide, by decide, by decide⟩))
    (by decide)

end YDG
